import Mathlib

/-!
Verification development for the configen nginx engine
(`src/lib/nginx/{types,linter,parser`\x7d` and the two generator variants:
the engine generator `src/lib/nginx/engine/generator.ts` and the lib
generator `src/lib/nginx/generator.ts`).

Modelling conventions, used throughout:
* TypeScript string-enum fields (`preset`, `matchType`, `method`, severities,
  units, …) are modelled as `String`/`Nat` exactly as JavaScript compares them.
* JavaScript truthiness on a `string` is `≠ ""`, on a `number` is `≠ 0`;
  `x || d` is modelled as `if x = neutral then d else x`.
* The optional `customDirectives` field is an `Option String` (absent = `none`).
* Mutation of a shared accumulator array (`push`) is modelled as list append,
  which produces the same final list in the same order.
* `JSON.stringify` equality of two configs (`isSameConfig`) is structural
  equality of the records, since the record shape and key order are fixed.
-/

namespace Configen

/-- JavaScript `String.prototype.includes`: substring containment. -/
def jsIncludes (s sub : String) : Bool := decide (sub.toList <:+: s.toList)

/-- JavaScript truthiness of a string: non-empty. -/
def truthy (s : String) : Bool := !(s == "")

/-- JavaScript `String.prototype.trim`, modelled over the character list
(the library `String.trim` does not reduce in the kernel). -/
def jsTrim (s : String) : String :=
  String.mk (((s.toList.dropWhile Char.isWhitespace).reverse.dropWhile Char.isWhitespace).reverse)

/-- JavaScript `String.prototype.startsWith`. -/
def jsStartsWith (s pre : String) : Bool := List.isPrefixOf pre.toList s.toList

/-- JavaScript `String.prototype.toLowerCase`, for the ASCII header names the
parser feeds it. -/
def jsToLower (s : String) : String := String.mk (s.toList.map Char.toLower)

/-- Splitter behind JavaScript `s.split('\n')`. -/
def splitLinesAux : List Char → List Char → List String
  | [], acc => [String.mk acc.reverse]
  | c :: rest, acc =>
    if c = '\n' then String.mk acc.reverse :: splitLinesAux rest []
    else splitLinesAux rest (c :: acc)

/-- JavaScript `s.split('\n')`. -/
def jsSplitLines (s : String) : List String := splitLinesAux s.toList []

/-- JavaScript `parseInt` in base 10, modelled for the non-negative inputs the
engine feeds it: parses a longest leading run of decimal digits and returns
`none` where `parseInt` returns `NaN` (no leading digit). -/
def parseIntJS (s : String) : Option Nat :=
  let digits := s.toList.takeWhile Char.isDigit
  if digits.isEmpty then none
  else some (digits.foldl (fun n c => n * 10 + (c.toNat - 48)) 0)

/-- Mirrors `SSLConfig` of `types.ts`; `preset` is kept as the raw string the
code compares against. -/
structure SSLConfig where
  enabled : Bool
  certificatePath : String
  keyPath : String
  httpRedirect : Bool
  protocols : List String
  enableHSTS : Bool
  enableOCSP : Bool
  preset : String
deriving DecidableEq, Repr

/-- Mirrors `LocationConfig` of `types.ts`; `matchType` and `type` are the raw
strings, `redirectCode` the raw number, `proxyHeaders` the key/value pairs. -/
structure LocationConfig where
  id : String
  path : String
  matchType : String
  type : String
  root : String
  tryFiles : String
  index : String
  autoindex : Bool
  cacheExpiry : String
  proxyPass : String
  proxyWebSocket : Bool
  proxyHeaders : List (String × String)
  redirectUrl : String
  redirectCode : Nat
  customDirectives : String
deriving DecidableEq, Repr

/-- Mirrors `SecurityConfig` of `types.ts`. -/
structure SecurityConfig where
  rateLimiting : Bool
  rateLimit : Nat
  rateBurst : Nat
  securityHeaders : Bool
  hideVersion : Bool
  ipAllowlist : List String
  ipDenylist : List String
  basicAuth : Bool
  basicAuthRealm : String
  basicAuthFile : String
deriving DecidableEq, Repr

/-- Mirrors `PerformanceConfig` of `types.ts`; `clientMaxBodyUnit` is the raw
string (`"MB"` or `"GB"`). -/
structure PerformanceConfig where
  gzip : Bool
  gzipTypes : List String
  brotli : Bool
  staticCaching : Bool
  cacheExpiry : String
  http2 : Bool
  clientMaxBodySize : Nat
  clientMaxBodyUnit : String
  keepaliveTimeout : Nat
  workerConnections : Nat
deriving DecidableEq, Repr

/-- Mirrors `LoggingConfig` of `types.ts`; `errorLogLevel` is the raw string
(the parser may store arbitrary strings in it). -/
structure LoggingConfig where
  accessLog : Bool
  accessLogPath : String
  errorLog : Bool
  errorLogPath : String
  errorLogLevel : String
  customLogFormat : Bool
deriving DecidableEq, Repr

/-- Mirrors `UpstreamServer` of `types.ts`. -/
structure UpstreamServer where
  id : String
  address : String
  weight : Nat
  maxFails : Nat
  failTimeout : Nat
deriving DecidableEq, Repr

/-- Mirrors `UpstreamConfig` of `types.ts`; `method` is the raw string. -/
structure UpstreamConfig where
  enabled : Bool
  name : String
  servers : List UpstreamServer
  method : String
deriving DecidableEq, Repr

/-- Mirrors `ReverseProxyConfig` of `types.ts`. -/
structure ReverseProxyConfig where
  enabled : Bool
  backendAddress : String
  webSocket : Bool
  realIpHeaders : Bool
  customHeaders : List (String × String)
deriving DecidableEq, Repr

/-- Mirrors `NginxConfig` of `types.ts`; the optional top-level
`customDirectives` bucket is an `Option`. -/
structure NginxConfig where
  serverName : String
  listenPort : Nat
  listen443 : Bool
  rootPath : String
  indexFiles : List String
  ssl : SSLConfig
  reverseProxy : ReverseProxyConfig
  locations : List LocationConfig
  security : SecurityConfig
  performance : PerformanceConfig
  logging : LoggingConfig
  upstream : UpstreamConfig
  customDirectives : Option String
deriving DecidableEq, Repr

/-- Modelled from the spec: `createDefaultLocation` of `stores/configStore` is
not among the engine sources; spec section 3 (Lifecycle) fixes only that a
fresh Model carries one default static location at `/`, so its remaining
fields are modelled as empty/neutral values. -/
def createDefaultLocation : LocationConfig :=
  { id := "loc-1"
    path := "/"
    matchType := "prefix"
    type := "static"
    root := ""
    tryFiles := ""
    index := ""
    autoindex := false
    cacheExpiry := ""
    proxyPass := ""
    proxyWebSocket := false
    proxyHeaders := []
    redirectUrl := ""
    redirectCode := 301
    customDirectives := "" }

/-- Modelled from the spec: `createDefaultUpstreamServer` of
`stores/configStore` is not among the engine sources; defaults follow the
no-op values the generators treat as defaults (`weight=1`, `max_fails=1`,
`fail_timeout=10`). -/
def createDefaultUpstreamServer : UpstreamServer :=
  { id := "up-1", address := "", weight := 1, maxFails := 1, failTimeout := 10 }

/-- Modelled from the spec: `createDefaultConfig` of `stores/configStore` is
not among the engine sources; spec section 3 fixes the shape and that the
default Model has one default static location at `/`; the remaining defaults
are modelled as a plain port-80 static site with every optional feature off. -/
def createDefaultConfig : NginxConfig :=
  { serverName := "example.com"
    listenPort := 80
    listen443 := false
    rootPath := "/var/www/html"
    indexFiles := ["index.html"]
    ssl :=
      { enabled := false, certificatePath := "", keyPath := ""
        httpRedirect := false, protocols := ["TLSv1.2", "TLSv1.3"]
        enableHSTS := false, enableOCSP := false, preset := "intermediate" }
    reverseProxy :=
      { enabled := false, backendAddress := "", webSocket := false
        realIpHeaders := false, customHeaders := [] }
    locations := [createDefaultLocation]
    security :=
      { rateLimiting := false, rateLimit := 10, rateBurst := 20
        securityHeaders := false, hideVersion := false
        ipAllowlist := [], ipDenylist := []
        basicAuth := false, basicAuthRealm := "", basicAuthFile := "" }
    performance :=
      { gzip := false, gzipTypes := [], brotli := false, staticCaching := false
        cacheExpiry := "", http2 := false, clientMaxBodySize := 0
        clientMaxBodyUnit := "MB", keepaliveTimeout := 0, workerConnections := 0 }
    logging :=
      { accessLog := false, accessLogPath := "", errorLog := false
        errorLogPath := "", errorLogLevel := "error", customLogFormat := false }
    upstream :=
      { enabled := false, name := "backend", servers := [], method := "round-robin" }
    customDirectives := none }

/-- Lint severities of `linter.ts` (`'error' | 'warning' | 'info'`). -/
inductive Severity where
  | error
  | warning
  | info
deriving DecidableEq, Repr

/-- Mirrors the `LintRule` records of `linter.ts` in the parts the engine
computes with: stable id, severity, `test`, and optional `fix`. The
presentational fields (`title`, `message`, `category`, `docsUrl`) are not
modelled. Each `fix` is the source's partial patch already deep-merged into
the config: the patches are statically known object literals, so
`deepMergeConfig` specializes to the record updates written here (object
fields merge key-by-key, arrays and scalars replace wholesale). -/
structure LintRule where
  id : String
  severity : Severity
  test : NginxConfig → Bool
  fix : Option (NginxConfig → NginxConfig)

/-- Rule `security-server-tokens` (linter.ts). -/
def ruleServerTokens : LintRule :=
  { id := "security-server-tokens", severity := .warning
    test := fun c => !c.security.hideVersion
    fix := some fun c => { c with security := { c.security with hideVersion := true } } }

/-- Rule `security-headers-missing` (linter.ts). -/
def ruleHeadersMissing : LintRule :=
  { id := "security-headers-missing", severity := .error
    test := fun c => !c.security.securityHeaders
    fix := some fun c => { c with security := { c.security with securityHeaders := true } } }

/-- Rule `security-ssl-missing` (linter.ts); no fix. -/
def ruleSslMissing : LintRule :=
  { id := "security-ssl-missing", severity := .error
    test := fun c => !c.ssl.enabled && c.listenPort == 80
    fix := none }

/-- Rule `security-ssl-enabled-missing-certs` (linter.ts); no fix. -/
def ruleSslMissingCerts : LintRule :=
  { id := "security-ssl-enabled-missing-certs", severity := .error
    test := fun c => c.ssl.enabled && (!truthy (jsTrim c.ssl.certificatePath) || !truthy (jsTrim c.ssl.keyPath))
    fix := none }

/-- Rule `bp-http-redirect-without-ssl` (linter.ts). -/
def ruleHttpRedirectWithoutSsl : LintRule :=
  { id := "bp-http-redirect-without-ssl", severity := .error
    test := fun c => c.ssl.httpRedirect && !c.ssl.enabled
    fix := some fun c => { c with ssl := { c.ssl with httpRedirect := false } } }

/-- Rule `security-upstream-needs-ssl` (linter.ts); no fix. -/
def ruleUpstreamNeedsSsl : LintRule :=
  { id := "security-upstream-needs-ssl", severity := .info
    test := fun c =>
      c.reverseProxy.enabled && jsStartsWith c.reverseProxy.backendAddress "http://"
        && !jsIncludes c.reverseProxy.backendAddress "localhost"
        && !jsIncludes c.reverseProxy.backendAddress "127.0.0.1"
    fix := none }

/-- Rule `correctness-proxy-enabled-without-backend` (linter.ts). -/
def ruleProxyWithoutBackend : LintRule :=
  { id := "correctness-proxy-enabled-without-backend", severity := .error
    test := fun c => c.reverseProxy.enabled && !truthy (jsTrim c.reverseProxy.backendAddress)
    fix := some fun c => { c with reverseProxy := { c.reverseProxy with enabled := false } } }

/-- Rule `perf-gzip-disabled` (linter.ts). -/
def ruleGzipDisabled : LintRule :=
  { id := "perf-gzip-disabled", severity := .warning
    test := fun c => !c.performance.gzip
    fix := some fun c => { c with performance := { c.performance with gzip := true } } }

/-- Rule `perf-http2-disabled` (linter.ts). -/
def ruleHttp2Disabled : LintRule :=
  { id := "perf-http2-disabled", severity := .info
    test := fun c => c.ssl.enabled && !c.performance.http2
    fix := some fun c => { c with performance := { c.performance with http2 := true } } }

/-- Rule `bp-worker-connections-low` (linter.ts); its test is the constant
`false` in the source (disabled rule), the fix is retained. -/
def ruleWorkerConnectionsLow : LintRule :=
  { id := "bp-worker-connections-low", severity := .warning
    test := fun _ => false
    fix := some fun c => { c with performance := { c.performance with workerConnections := 1024 } } }

/-- Rule `bp-keepalive-timeout-high` (linter.ts). -/
def ruleKeepaliveHigh : LintRule :=
  { id := "bp-keepalive-timeout-high", severity := .info
    test := fun c => c.performance.keepaliveTimeout > 75
    fix := some fun c => { c with performance := { c.performance with keepaliveTimeout := 65 } } }

/-- Rule `security-ssl-protocols-outdated` (linter.ts). -/
def ruleProtocolsOutdated : LintRule :=
  { id := "security-ssl-protocols-outdated", severity := .error
    test := fun c => c.ssl.enabled && c.ssl.protocols.any (fun p => p == "TLSv1" || p == "TLSv1.1")
    fix := some fun c =>
      { c with ssl := { c.ssl with
          protocols := c.ssl.protocols.filter (fun p => !(p == "TLSv1") && !(p == "TLSv1.1")) } } }

/-- Rule `security-no-rate-limiting` (linter.ts). -/
def ruleNoRateLimiting : LintRule :=
  { id := "security-no-rate-limiting", severity := .info
    test := fun c => !c.security.rateLimiting
    fix := some fun c =>
      { c with security := { c.security with rateLimiting := true, rateLimit := 10, rateBurst := 20 } } }

/-- Rule `security-basic-auth-no-ssl` (linter.ts); no fix. -/
def ruleBasicAuthNoSsl : LintRule :=
  { id := "security-basic-auth-no-ssl", severity := .error
    test := fun c => c.security.basicAuth && !c.ssl.enabled
    fix := none }

/-- Rule `security-open-autoindex` (linter.ts); no fix. -/
def ruleOpenAutoindex : LintRule :=
  { id := "security-open-autoindex", severity := .warning
    test := fun c => c.locations.any (fun loc => loc.autoindex)
    fix := none }

/-- Rule `perf-brotli-disabled` (linter.ts). -/
def ruleBrotliDisabled : LintRule :=
  { id := "perf-brotli-disabled", severity := .info
    test := fun c => c.ssl.enabled && !c.performance.brotli
    fix := some fun c => { c with performance := { c.performance with brotli := true } } }

/-- Rule `perf-no-static-caching` (linter.ts). -/
def ruleNoStaticCaching : LintRule :=
  { id := "perf-no-static-caching", severity := .warning
    test := fun c => !c.performance.staticCaching
    fix := some fun c =>
      { c with performance := { c.performance with staticCaching := true, cacheExpiry := "30d" } } }

/-- Rule `perf-large-client-body` (linter.ts); no fix. -/
def ruleLargeClientBody : LintRule :=
  { id := "perf-large-client-body", severity := .warning
    test := fun c =>
      let sizeInMB :=
        if c.performance.clientMaxBodyUnit == "GB" then c.performance.clientMaxBodySize * 1024
        else c.performance.clientMaxBodySize
      sizeInMB > 100
    fix := none }

/-- Rule `perf-low-keepalive` (linter.ts). -/
def ruleLowKeepalive : LintRule :=
  { id := "perf-low-keepalive", severity := .info
    test := fun c => c.performance.keepaliveTimeout > 0 && c.performance.keepaliveTimeout < 10
    fix := some fun c => { c with performance := { c.performance with keepaliveTimeout := 65 } } }

/-- Rule `bp-missing-root-or-proxy` (linter.ts); no fix. -/
def ruleMissingRootOrProxy : LintRule :=
  { id := "bp-missing-root-or-proxy", severity := .warning
    test := fun c => c.locations.length == 0 && !c.reverseProxy.enabled
    fix := none }

/-- Rule `bp-single-server-upstream` (linter.ts); no fix. -/
def ruleSingleServerUpstream : LintRule :=
  { id := "bp-single-server-upstream", severity := .info
    test := fun c => c.upstream.enabled && c.upstream.servers.length == 1
    fix := none }

/-- Rule `bp-logging-disabled` (linter.ts). -/
def ruleLoggingDisabled : LintRule :=
  { id := "bp-logging-disabled", severity := .warning
    test := fun c => !c.logging.accessLog
    fix := some fun c =>
      { c with logging := { c.logging with
          accessLog := true, accessLogPath := "/var/log/nginx/access.log" } } }

/-- Mirrors the `rules` array of `linter.ts`, in source order. -/
def rules : List LintRule :=
  [ruleServerTokens, ruleHeadersMissing, ruleSslMissing, ruleSslMissingCerts,
   ruleHttpRedirectWithoutSsl, ruleUpstreamNeedsSsl, ruleProxyWithoutBackend,
   ruleGzipDisabled, ruleHttp2Disabled, ruleWorkerConnectionsLow, ruleKeepaliveHigh,
   ruleProtocolsOutdated, ruleNoRateLimiting, ruleBasicAuthNoSsl, ruleOpenAutoindex,
   ruleBrotliDisabled, ruleNoStaticCaching, ruleLargeClientBody, ruleLowKeepalive,
   ruleMissingRootOrProxy, ruleSingleServerUpstream, ruleLoggingDisabled]

/-- Mirrors `LintResult` of `linter.ts` in the fields the engine computes with
(id and severity; the presentational fields are not modelled). -/
structure LintResult where
  ruleId : String
  severity : Severity
deriving DecidableEq, Repr

/-- Mirrors the `counts` record of `LintReport`. -/
structure LintCounts where
  error : Nat
  warning : Nat
  info : Nat
deriving DecidableEq, Repr

/-- Mirrors `LintReport` of `linter.ts`. The source additionally sorts
`results` by severity rank and then by `title.localeCompare`; that
locale-dependent reordering is not modelled (it permutes `results` and leaves
`valid`, `score` and `counts` unchanged). -/
structure LintReport where
  valid : Bool
  score : Int
  results : List LintResult
  counts : LintCounts
deriving DecidableEq, Repr

/-- Increment of `counts[rule.severity]` in `lintConfig`. -/
def bumpCount (c : LintCounts) : Severity → LintCounts
  | .error => { c with error := c.error + 1 }
  | .warning => { c with warning := c.warning + 1 }
  | .info => { c with info := c.info + 1 }

/-- Body of the rule loop of `lintConfig`: append the firing rule's finding
and bump its severity count. -/
def lintStep (config : NginxConfig) (acc : List LintResult × LintCounts)
    (rule : LintRule) : List LintResult × LintCounts :=
  if rule.test config then
    (acc.1 ++ [{ ruleId := rule.id, severity := rule.severity }], bumpCount acc.2 rule.severity)
  else acc

/-- Mirrors `lintConfig` of `linter.ts`: run every rule's test, collect firing
rules and per-severity counts, then score `100 - 20·error - 10·warning -
2·info` floored at `0`, and `valid` iff no error-severity finding. The
source's `try/catch` around each test cannot fire here because the embedded
tests are total. -/
def lintConfig (config : NginxConfig) : LintReport :=
  let folded := rules.foldl (lintStep config) ([], { error := 0, warning := 0, info := 0 })
  let score : Int :=
    100 - (folded.2.error : Int) * 20 - (folded.2.warning : Int) * 10 - (folded.2.info : Int) * 2
  { valid := folded.2.error == 0
    score := max 0 score
    results := folded.1
    counts := folded.2 }

/-- Mirrors `ApplyFixResult` of `linter.ts`. -/
structure ApplyFixResult where
  config : NginxConfig
  applied : Bool
  appliedRuleIds : List String
deriving DecidableEq, Repr

/-- Mirrors `applyLintFix` of `linter.ts`: look the rule up by id; no fix or a
non-firing test is a no-op; otherwise apply the fix and report `applied` only
if the merged config structurally differs (`isSameConfig` is
`JSON.stringify` equality, i.e. structural equality here). -/
def applyLintFix (config : NginxConfig) (ruleId : String) : ApplyFixResult :=
  match rules.find? (fun item => item.id == ruleId) with
  | none => { config := config, applied := false, appliedRuleIds := [] }
  | some rule =>
    match rule.fix with
    | none => { config := config, applied := false, appliedRuleIds := [] }
    | some f =>
      if rule.test config then
        let nextConfig := f config
        if nextConfig = config then
          { config := config, applied := false, appliedRuleIds := [] }
        else
          { config := nextConfig, applied := true, appliedRuleIds := [rule.id] }
      else { config := config, applied := false, appliedRuleIds := [] }

/-- State of one sweep of the inner rule loop of `applyAllLintFixes`:
the current config, the accumulated `appliedRuleIds` (kept across passes),
and the per-pass `changedInPass` flag. -/
structure SweepState where
  config : NginxConfig
  ids : List String
  changed : Bool

/-- Body of the inner rule loop of `applyAllLintFixes`: skip rules without a
fix or whose test does not fire on the current config; otherwise merge the
fix and record the rule id if the config structurally changed. -/
def runFixRule (s : SweepState) (rule : LintRule) : SweepState :=
  match rule.fix with
  | none => s
  | some f =>
    if rule.test s.config then
      let nextConfig := f s.config
      if nextConfig = s.config then s
      else { config := nextConfig, ids := s.ids ++ [rule.id], changed := true }
    else s

/-- Pass loop of `applyAllLintFixes` (`for pass in 0..maxPasses`), with the
remaining pass budget as the first argument and the set of already seen
config signatures as a list: after each full sweep, stop if the resulting
signature was already seen (cycle detection) or the sweep changed nothing. -/
def applyAllLintFixesAux : Nat → NginxConfig → List String → List NginxConfig →
    NginxConfig × List String
  | 0, c, ids, _ => (c, ids)
  | n + 1, c, ids, seen =>
    let s := rules.foldl runFixRule { config := c, ids := ids, changed := false }
    if s.config ∈ seen then (s.config, s.ids)
    else if s.changed = false then (s.config, s.ids)
    else applyAllLintFixesAux n s.config s.ids (seen ++ [s.config])

/-- Mirrors `applyAllLintFixes` of `linter.ts` (`maxPasses` defaults to 3 at
every call site): sweep the full rule list up to `maxPasses` times, then
report whether the final config structurally differs from the input. -/
def applyAllLintFixes (config : NginxConfig) (maxPasses : Nat) : ApplyFixResult :=
  let r := applyAllLintFixesAux maxPasses config [] [config]
  { config := r.1
    applied := if r.1 = config then false else true
    appliedRuleIds := r.2 }

/-- Concrete fully-hardened model, mirroring the `makeConfig` defaults of
`tests/linter.test.ts`; no lint rule fires on it. Used by several witnesses. -/
def robustConfig : NginxConfig :=
  { serverName := "example.com"
    listenPort := 443
    listen443 := true
    rootPath := "/var/www/html"
    indexFiles := ["index.html"]
    ssl :=
      { enabled := true, certificatePath := "/etc/ssl/cert.pem", keyPath := "/etc/ssl/key.pem"
        httpRedirect := true, protocols := ["TLSv1.2", "TLSv1.3"]
        enableHSTS := true, enableOCSP := true, preset := "modern" }
    reverseProxy :=
      { enabled := false, backendAddress := "", webSocket := false
        realIpHeaders := true, customHeaders := [] }
    locations :=
      [{ id := "1", path := "/", matchType := "prefix", type := "static"
         root := "/var/www/html", tryFiles := "$uri $uri/ =404", index := "index.html"
         autoindex := false, cacheExpiry := "30d", proxyPass := "", proxyWebSocket := false
         proxyHeaders := [], redirectUrl := "", redirectCode := 301, customDirectives := "" }]
    security :=
      { rateLimiting := true, rateLimit := 10, rateBurst := 20
        securityHeaders := true, hideVersion := true
        ipAllowlist := [], ipDenylist := []
        basicAuth := false, basicAuthRealm := "", basicAuthFile := "" }
    performance :=
      { gzip := true, gzipTypes := ["text/plain"], brotli := true, staticCaching := true
        cacheExpiry := "30d", http2 := true, clientMaxBodySize := 10
        clientMaxBodyUnit := "MB", keepaliveTimeout := 65, workerConnections := 1024 }
    logging :=
      { accessLog := true, accessLogPath := "/var/log/nginx/access.log", errorLog := true
        errorLogPath := "/var/log/nginx/error.log", errorLogLevel := "warn", customLogFormat := false }
    upstream :=
      { enabled := false, name := "backend", servers := [], method := "round-robin" }
    customDirectives := none }

/-- The error count of the lint fold equals the number of firing
error-severity rules in the processed prefix. -/
theorem lintFold_error (c : NginxConfig) (rs : List LintRule)
    (acc : List LintResult × LintCounts) :
    (rs.foldl (lintStep c) acc).2.error =
      acc.2.error + (rs.filter (fun r => r.test c && r.severity == Severity.error)).length := by
  induction rs generalizing acc with
  | nil => simp
  | cons r rs ih =>
    rw [List.foldl_cons, List.filter_cons, ih]
    by_cases ht : r.test c
    · cases hs : r.severity <;> simp [lintStep, bumpCount, ht, hs]
      all_goals omega
    · simp [lintStep, ht]

/-- The warning count of the lint fold equals the number of firing
warning-severity rules in the processed prefix. -/
theorem lintFold_warning (c : NginxConfig) (rs : List LintRule)
    (acc : List LintResult × LintCounts) :
    (rs.foldl (lintStep c) acc).2.warning =
      acc.2.warning + (rs.filter (fun r => r.test c && r.severity == Severity.warning)).length := by
  induction rs generalizing acc with
  | nil => simp
  | cons r rs ih =>
    rw [List.foldl_cons, List.filter_cons, ih]
    by_cases ht : r.test c
    · cases hs : r.severity <;> simp [lintStep, bumpCount, ht, hs]
      all_goals omega
    · simp [lintStep, ht]

/-- The info count of the lint fold equals the number of firing
info-severity rules in the processed prefix. -/
theorem lintFold_info (c : NginxConfig) (rs : List LintRule)
    (acc : List LintResult × LintCounts) :
    (rs.foldl (lintStep c) acc).2.info =
      acc.2.info + (rs.filter (fun r => r.test c && r.severity == Severity.info)).length := by
  induction rs generalizing acc with
  | nil => simp
  | cons r rs ih =>
    rw [List.foldl_cons, List.filter_cons, ih]
    by_cases ht : r.test c
    · cases hs : r.severity <;> simp [lintStep, bumpCount, ht, hs]
      all_goals omega
    · simp [lintStep, ht]

/-- Clamped-subtraction identity behind the score-monotonicity claim. -/
theorem score_clamp_step (x : Int) : max 0 (x - 20) = max 0 (max 0 x - 20) := by
  simp only [max_def]
  split_ifs <;> omega

/-- C5 — `lintConfig` health score and validity: for every Model, the
per-severity counts are exactly the numbers of firing rules of that severity,
the score is `100 - 20·errors - 10·warnings - 2·infos` floored at `0`, and
`valid` holds iff no error-severity rule fired; consequently one additional
firing error-severity rule (warnings and infos unchanged) moves the score to
`max 0 (score - 20)`, i.e. cuts exactly 20 points, clamped at 0. -/
theorem c5_lint_score_valid :
    (∀ c : NginxConfig,
      (lintConfig c).counts.error =
          (rules.filter (fun r => r.test c && r.severity == Severity.error)).length
        ∧ (lintConfig c).counts.warning =
          (rules.filter (fun r => r.test c && r.severity == Severity.warning)).length
        ∧ (lintConfig c).counts.info =
          (rules.filter (fun r => r.test c && r.severity == Severity.info)).length
        ∧ (lintConfig c).score =
          max 0 (100 - ((lintConfig c).counts.error : Int) * 20
            - ((lintConfig c).counts.warning : Int) * 10
            - ((lintConfig c).counts.info : Int) * 2)
        ∧ ((lintConfig c).valid = true ↔ (lintConfig c).counts.error = 0))
    ∧ (∀ c c' : NginxConfig,
        (lintConfig c').counts.error = (lintConfig c).counts.error + 1 →
        (lintConfig c').counts.warning = (lintConfig c).counts.warning →
        (lintConfig c').counts.info = (lintConfig c).counts.info →
        (lintConfig c').score = max 0 ((lintConfig c).score - 20)) := by
  have score_eq : ∀ c : NginxConfig,
      (lintConfig c).score =
        max 0 (100 - ((lintConfig c).counts.error : Int) * 20
          - ((lintConfig c).counts.warning : Int) * 10
          - ((lintConfig c).counts.info : Int) * 2) := fun c => rfl
  refine ⟨fun c => ⟨?_, ?_, ?_, score_eq c, ?_⟩, fun c c' he hw hi => ?_⟩
  · simpa using lintFold_error c rules ([], { error := 0, warning := 0, info := 0 })
  · simpa using lintFold_warning c rules ([], { error := 0, warning := 0, info := 0 })
  · simpa using lintFold_info c rules ([], { error := 0, warning := 0, info := 0 })
  · show (_ == 0) = true ↔ _
    simp [lintConfig]
  · rw [score_eq c', score_eq c, he, hw, hi]
    simp only [max_def]
    push_cast
    split_ifs <;> omega

/-- Variant of `robustConfig` with the SSL certificate path cleared: exactly
one additional error-severity rule (`security-ssl-enabled-missing-certs`)
fires relative to `robustConfig`. -/
def missingCertConfig : NginxConfig :=
  { robustConfig with ssl := { robustConfig.ssl with certificatePath := "" } }

/-- Witness for C5 at concrete models: clearing the certificate path of the
hardened model adds exactly one error finding and cuts the score by 20. -/
theorem c5_witness :
    (lintConfig missingCertConfig).counts.error = (lintConfig robustConfig).counts.error + 1
      ∧ (lintConfig missingCertConfig).score = max 0 ((lintConfig robustConfig).score - 20) :=
  ⟨by decide, c5_lint_score_valid.2 robustConfig missingCertConfig
    (by decide) (by decide) (by decide)⟩

/-- C6 — single-fix no-op guard of `applyLintFix`: if the rule found for the
given id has no fix, or its test does not fire on the model, the call returns
the model unchanged with `applied = false` and no applied rule ids (an
unknown id behaves the same way). -/
theorem c6_single_fix_noop (c : NginxConfig) (ruleId : String)
    (h : ∀ r, rules.find? (fun item => item.id == ruleId) = some r →
      r.fix = none ∨ r.test c = false) :
    applyLintFix c ruleId = { config := c, applied := false, appliedRuleIds := [] } := by
  unfold applyLintFix
  cases hf : rules.find? (fun item => item.id == ruleId) with
  | none => rfl
  | some r =>
    rcases h r hf with hfix | htest
    · simp [hfix]
    · cases hfx : r.fix <;> simp [hfx, htest]

/-- Witness for C6: `security-server-tokens` does not fire on the hardened
model, so applying its fix is a no-op. -/
theorem c6_witness :
    applyLintFix robustConfig "security-server-tokens" =
      { config := robustConfig, applied := false, appliedRuleIds := [] } := by
  apply c6_single_fix_noop
  intro r hr
  have he : rules.find? (fun item => item.id == "security-server-tokens") =
      some ruleServerTokens := by rfl
  rw [he] at hr
  cases hr
  exact Or.inr (by decide)

/-- Config-component effect of one `runFixRule` step: apply the fix iff the
rule has one and its test fires (the no-op branch of `runFixRule` returns the
same config either way). -/
def cfgStep (c : NginxConfig) (rule : LintRule) : NginxConfig :=
  match rule.fix with
  | none => c
  | some f => if rule.test c then f c else c

/-- A `runFixRule` step changes the config exactly as `cfgStep` does. -/
theorem runFixRule_config (s : SweepState) (rule : LintRule) :
    (runFixRule s rule).config = cfgStep s.config rule := by
  unfold runFixRule cfgStep
  cases rule.fix with
  | none => rfl
  | some f =>
    by_cases ht : rule.test s.config
    · simp only [ht, if_true]
      by_cases he : f s.config = s.config
      · simp [he]
      · simp [he]
    · simp [ht]

/-- The config component of a sweep is the fold of `cfgStep`. -/
theorem foldl_runFixRule_config (rs : List LintRule) (s : SweepState) :
    (rs.foldl runFixRule s).config = rs.foldl cfgStep s.config := by
  induction rs generalizing s with
  | nil => rfl
  | cons r rs ih => rw [List.foldl_cons, List.foldl_cons, ih, runFixRule_config]

/-- A rule whose test does not fire leaves the sweep state unchanged. -/
theorem runFixRule_skip (s : SweepState) (rule : LintRule)
    (h : rule.test s.config = false) : runFixRule s rule = s := by
  unfold runFixRule
  cases rule.fix with
  | none => rfl
  | some f => simp [h]

/-- A rule without a fix leaves the sweep state unchanged. -/
theorem runFixRule_nofix (s : SweepState) (rule : LintRule)
    (h : rule.fix = none) : runFixRule s rule = s := by
  unfold runFixRule
  rw [h]

/-- A model on which no fixable lint rule fires: the test of each of the 13
rules of `rules` that both carry a fix and can fire (the disabled
`bp-worker-connections-low` test is constantly false) evaluates to `false`.
The equations below are definitionally the tests of those rules. -/
def CleanFix (c : NginxConfig) : Prop :=
  c.security.hideVersion = true ∧
  c.security.securityHeaders = true ∧
  (c.ssl.httpRedirect && !c.ssl.enabled) = false ∧
  (c.reverseProxy.enabled && !truthy (jsTrim c.reverseProxy.backendAddress)) = false ∧
  c.performance.gzip = true ∧
  (c.ssl.enabled && !c.performance.http2) = false ∧
  decide (c.performance.keepaliveTimeout > 75) = false ∧
  (c.ssl.enabled && c.ssl.protocols.any (fun p => p == "TLSv1" || p == "TLSv1.1")) = false ∧
  c.security.rateLimiting = true ∧
  (c.ssl.enabled && !c.performance.brotli) = false ∧
  c.performance.staticCaching = true ∧
  (decide (c.performance.keepaliveTimeout > 0) && decide (c.performance.keepaliveTimeout < 10)) = false ∧
  c.logging.accessLog = true

/-- The fixless rule `ruleSslMissing` is a no-op for `cfgStep`. -/
@[simp] theorem csSslMissing_id (c : NginxConfig) : cfgStep c ruleSslMissing = c := rfl

/-- The fixless rule `ruleSslMissingCerts` is a no-op for `cfgStep`. -/
@[simp] theorem csSslMissingCerts_id (c : NginxConfig) : cfgStep c ruleSslMissingCerts = c := rfl

/-- The fixless rule `ruleUpstreamNeedsSsl` is a no-op for `cfgStep`. -/
@[simp] theorem csUpstreamNeedsSsl_id (c : NginxConfig) : cfgStep c ruleUpstreamNeedsSsl = c := rfl

/-- The fixless rule `ruleBasicAuthNoSsl` is a no-op for `cfgStep`. -/
@[simp] theorem csBasicAuthNoSsl_id (c : NginxConfig) : cfgStep c ruleBasicAuthNoSsl = c := rfl

/-- The fixless rule `ruleOpenAutoindex` is a no-op for `cfgStep`. -/
@[simp] theorem csOpenAutoindex_id (c : NginxConfig) : cfgStep c ruleOpenAutoindex = c := rfl

/-- The fixless rule `ruleLargeClientBody` is a no-op for `cfgStep`. -/
@[simp] theorem csLargeClientBody_id (c : NginxConfig) : cfgStep c ruleLargeClientBody = c := rfl

/-- The fixless rule `ruleMissingRootOrProxy` is a no-op for `cfgStep`. -/
@[simp] theorem csMissingRootOrProxy_id (c : NginxConfig) : cfgStep c ruleMissingRootOrProxy = c := rfl

/-- The fixless rule `ruleSingleServerUpstream` is a no-op for `cfgStep`. -/
@[simp] theorem csSingleServerUpstream_id (c : NginxConfig) : cfgStep c ruleSingleServerUpstream = c := rfl

/-- The disabled rule `bp-worker-connections-low` (constant-false test) is a
no-op for `cfgStep`. -/
@[simp] theorem csWorker_id (c : NginxConfig) : cfgStep c ruleWorkerConnectionsLow = c := rfl

/-- After the `security-server-tokens` step, `hideVersion` holds. -/
@[simp] theorem csServerTokens_hv (c : NginxConfig) :
    (cfgStep c ruleServerTokens).security.hideVersion = true := by
  simp only [cfgStep, ruleServerTokens]
  split <;> simp_all

/-- The `security-server-tokens` step preserves `securityHeaders`. -/
@[simp] theorem csServerTokens_sh (c : NginxConfig) :
    (cfgStep c ruleServerTokens).security.securityHeaders = c.security.securityHeaders := by
  simp only [cfgStep, ruleServerTokens]
  split <;> rfl

/-- The `security-server-tokens` step preserves `rateLimiting`. -/
@[simp] theorem csServerTokens_rl (c : NginxConfig) :
    (cfgStep c ruleServerTokens).security.rateLimiting = c.security.rateLimiting := by
  simp only [cfgStep, ruleServerTokens]
  split <;> rfl

/-- The `security-server-tokens` step preserves `ssl`. -/
@[simp] theorem csServerTokens_ssl (c : NginxConfig) :
    (cfgStep c ruleServerTokens).ssl = c.ssl := by
  simp only [cfgStep, ruleServerTokens]
  split <;> rfl

/-- The `security-server-tokens` step preserves `performance`. -/
@[simp] theorem csServerTokens_performance (c : NginxConfig) :
    (cfgStep c ruleServerTokens).performance = c.performance := by
  simp only [cfgStep, ruleServerTokens]
  split <;> rfl

/-- The `security-server-tokens` step preserves `logging`. -/
@[simp] theorem csServerTokens_logging (c : NginxConfig) :
    (cfgStep c ruleServerTokens).logging = c.logging := by
  simp only [cfgStep, ruleServerTokens]
  split <;> rfl

/-- The `security-server-tokens` step preserves `reverseProxy`. -/
@[simp] theorem csServerTokens_reverseProxy (c : NginxConfig) :
    (cfgStep c ruleServerTokens).reverseProxy = c.reverseProxy := by
  simp only [cfgStep, ruleServerTokens]
  split <;> rfl

/-- After the `security-headers-missing` step, `securityHeaders` holds. -/
@[simp] theorem csHeaders_sh (c : NginxConfig) :
    (cfgStep c ruleHeadersMissing).security.securityHeaders = true := by
  simp only [cfgStep, ruleHeadersMissing]
  split <;> simp_all

/-- The `security-headers-missing` step preserves `hideVersion`. -/
@[simp] theorem csHeaders_hv (c : NginxConfig) :
    (cfgStep c ruleHeadersMissing).security.hideVersion = c.security.hideVersion := by
  simp only [cfgStep, ruleHeadersMissing]
  split <;> rfl

/-- The `security-headers-missing` step preserves `rateLimiting`. -/
@[simp] theorem csHeaders_rl (c : NginxConfig) :
    (cfgStep c ruleHeadersMissing).security.rateLimiting = c.security.rateLimiting := by
  simp only [cfgStep, ruleHeadersMissing]
  split <;> rfl

/-- The `security-headers-missing` step preserves `ssl`. -/
@[simp] theorem csHeaders_ssl (c : NginxConfig) :
    (cfgStep c ruleHeadersMissing).ssl = c.ssl := by
  simp only [cfgStep, ruleHeadersMissing]
  split <;> rfl

/-- The `security-headers-missing` step preserves `performance`. -/
@[simp] theorem csHeaders_performance (c : NginxConfig) :
    (cfgStep c ruleHeadersMissing).performance = c.performance := by
  simp only [cfgStep, ruleHeadersMissing]
  split <;> rfl

/-- The `security-headers-missing` step preserves `logging`. -/
@[simp] theorem csHeaders_logging (c : NginxConfig) :
    (cfgStep c ruleHeadersMissing).logging = c.logging := by
  simp only [cfgStep, ruleHeadersMissing]
  split <;> rfl

/-- The `security-headers-missing` step preserves `reverseProxy`. -/
@[simp] theorem csHeaders_reverseProxy (c : NginxConfig) :
    (cfgStep c ruleHeadersMissing).reverseProxy = c.reverseProxy := by
  simp only [cfgStep, ruleHeadersMissing]
  split <;> rfl

/-- After the `bp-http-redirect-without-ssl` step, `httpRedirect` holds only
if SSL is enabled. -/
@[simp] theorem csRedirect_hr (c : NginxConfig) :
    (cfgStep c ruleHttpRedirectWithoutSsl).ssl.httpRedirect =
      (c.ssl.httpRedirect && c.ssl.enabled) := by
  cases hr : c.ssl.httpRedirect <;> cases he : c.ssl.enabled <;>
    simp [cfgStep, ruleHttpRedirectWithoutSsl, hr, he]

/-- The `bp-http-redirect-without-ssl` step preserves `ssl.enabled`. -/
@[simp] theorem csRedirect_en (c : NginxConfig) :
    (cfgStep c ruleHttpRedirectWithoutSsl).ssl.enabled = c.ssl.enabled := by
  simp only [cfgStep, ruleHttpRedirectWithoutSsl]
  split <;> rfl

/-- The `bp-http-redirect-without-ssl` step preserves `ssl.protocols`. -/
@[simp] theorem csRedirect_protos (c : NginxConfig) :
    (cfgStep c ruleHttpRedirectWithoutSsl).ssl.protocols = c.ssl.protocols := by
  simp only [cfgStep, ruleHttpRedirectWithoutSsl]
  split <;> rfl

/-- The `bp-http-redirect-without-ssl` step preserves `security`. -/
@[simp] theorem csRedirect_security (c : NginxConfig) :
    (cfgStep c ruleHttpRedirectWithoutSsl).security = c.security := by
  simp only [cfgStep, ruleHttpRedirectWithoutSsl]
  split <;> rfl

/-- The `bp-http-redirect-without-ssl` step preserves `performance`. -/
@[simp] theorem csRedirect_performance (c : NginxConfig) :
    (cfgStep c ruleHttpRedirectWithoutSsl).performance = c.performance := by
  simp only [cfgStep, ruleHttpRedirectWithoutSsl]
  split <;> rfl

/-- The `bp-http-redirect-without-ssl` step preserves `logging`. -/
@[simp] theorem csRedirect_logging (c : NginxConfig) :
    (cfgStep c ruleHttpRedirectWithoutSsl).logging = c.logging := by
  simp only [cfgStep, ruleHttpRedirectWithoutSsl]
  split <;> rfl

/-- The `bp-http-redirect-without-ssl` step preserves `reverseProxy`. -/
@[simp] theorem csRedirect_reverseProxy (c : NginxConfig) :
    (cfgStep c ruleHttpRedirectWithoutSsl).reverseProxy = c.reverseProxy := by
  simp only [cfgStep, ruleHttpRedirectWithoutSsl]
  split <;> rfl

/-- After the `correctness-proxy-enabled-without-backend` step, the reverse
proxy is enabled only if the backend address is non-blank. -/
@[simp] theorem csProxy_en (c : NginxConfig) :
    (cfgStep c ruleProxyWithoutBackend).reverseProxy.enabled =
      (c.reverseProxy.enabled && truthy (jsTrim c.reverseProxy.backendAddress)) := by
  cases he : c.reverseProxy.enabled <;>
    cases ht : truthy (jsTrim c.reverseProxy.backendAddress) <;>
    simp [cfgStep, ruleProxyWithoutBackend, he, ht]

/-- The `correctness-proxy-enabled-without-backend` step preserves the backend address. -/
@[simp] theorem csProxy_backend (c : NginxConfig) :
    (cfgStep c ruleProxyWithoutBackend).reverseProxy.backendAddress = c.reverseProxy.backendAddress := by
  simp only [cfgStep, ruleProxyWithoutBackend]
  split <;> rfl

/-- The `correctness-proxy-enabled-without-backend` step preserves `security`. -/
@[simp] theorem csProxy_security (c : NginxConfig) :
    (cfgStep c ruleProxyWithoutBackend).security = c.security := by
  simp only [cfgStep, ruleProxyWithoutBackend]
  split <;> rfl

/-- The `correctness-proxy-enabled-without-backend` step preserves `ssl`. -/
@[simp] theorem csProxy_ssl (c : NginxConfig) :
    (cfgStep c ruleProxyWithoutBackend).ssl = c.ssl := by
  simp only [cfgStep, ruleProxyWithoutBackend]
  split <;> rfl

/-- The `correctness-proxy-enabled-without-backend` step preserves `performance`. -/
@[simp] theorem csProxy_performance (c : NginxConfig) :
    (cfgStep c ruleProxyWithoutBackend).performance = c.performance := by
  simp only [cfgStep, ruleProxyWithoutBackend]
  split <;> rfl

/-- The `correctness-proxy-enabled-without-backend` step preserves `logging`. -/
@[simp] theorem csProxy_logging (c : NginxConfig) :
    (cfgStep c ruleProxyWithoutBackend).logging = c.logging := by
  simp only [cfgStep, ruleProxyWithoutBackend]
  split <;> rfl

/-- After the `perf-gzip-disabled` step, gzip is on. -/
@[simp] theorem csGzip_gzip (c : NginxConfig) :
    (cfgStep c ruleGzipDisabled).performance.gzip = true := by
  simp only [cfgStep, ruleGzipDisabled]
  split <;> simp_all

/-- The `perf-gzip-disabled` step preserves `performance.http2`. -/
@[simp] theorem csGzip_http2 (c : NginxConfig) :
    (cfgStep c ruleGzipDisabled).performance.http2 = c.performance.http2 := by
  simp only [cfgStep, ruleGzipDisabled]
  split <;> rfl

/-- The `perf-gzip-disabled` step preserves `performance.keepaliveTimeout`. -/
@[simp] theorem csGzip_keepaliveTimeout (c : NginxConfig) :
    (cfgStep c ruleGzipDisabled).performance.keepaliveTimeout = c.performance.keepaliveTimeout := by
  simp only [cfgStep, ruleGzipDisabled]
  split <;> rfl

/-- The `perf-gzip-disabled` step preserves `performance.brotli`. -/
@[simp] theorem csGzip_brotli (c : NginxConfig) :
    (cfgStep c ruleGzipDisabled).performance.brotli = c.performance.brotli := by
  simp only [cfgStep, ruleGzipDisabled]
  split <;> rfl

/-- The `perf-gzip-disabled` step preserves `performance.staticCaching`. -/
@[simp] theorem csGzip_staticCaching (c : NginxConfig) :
    (cfgStep c ruleGzipDisabled).performance.staticCaching = c.performance.staticCaching := by
  simp only [cfgStep, ruleGzipDisabled]
  split <;> rfl

/-- The `perf-gzip-disabled` step preserves `security`. -/
@[simp] theorem csGzip_security (c : NginxConfig) :
    (cfgStep c ruleGzipDisabled).security = c.security := by
  simp only [cfgStep, ruleGzipDisabled]
  split <;> rfl

/-- The `perf-gzip-disabled` step preserves `ssl`. -/
@[simp] theorem csGzip_ssl (c : NginxConfig) :
    (cfgStep c ruleGzipDisabled).ssl = c.ssl := by
  simp only [cfgStep, ruleGzipDisabled]
  split <;> rfl

/-- The `perf-gzip-disabled` step preserves `logging`. -/
@[simp] theorem csGzip_logging (c : NginxConfig) :
    (cfgStep c ruleGzipDisabled).logging = c.logging := by
  simp only [cfgStep, ruleGzipDisabled]
  split <;> rfl

/-- The `perf-gzip-disabled` step preserves `reverseProxy`. -/
@[simp] theorem csGzip_reverseProxy (c : NginxConfig) :
    (cfgStep c ruleGzipDisabled).reverseProxy = c.reverseProxy := by
  simp only [cfgStep, ruleGzipDisabled]
  split <;> rfl

/-- After the `perf-http2-disabled` step, HTTP/2 is on whenever SSL is. -/
@[simp] theorem csHttp2_http2 (c : NginxConfig) :
    (cfgStep c ruleHttp2Disabled).performance.http2 =
      (c.performance.http2 || c.ssl.enabled) := by
  cases he : c.ssl.enabled <;> cases hh : c.performance.http2 <;>
    simp [cfgStep, ruleHttp2Disabled, he, hh]

/-- The `perf-http2-disabled` step preserves `performance.gzip`. -/
@[simp] theorem csHttp2_gzip (c : NginxConfig) :
    (cfgStep c ruleHttp2Disabled).performance.gzip = c.performance.gzip := by
  simp only [cfgStep, ruleHttp2Disabled]
  split <;> rfl

/-- The `perf-http2-disabled` step preserves `performance.keepaliveTimeout`. -/
@[simp] theorem csHttp2_keepaliveTimeout (c : NginxConfig) :
    (cfgStep c ruleHttp2Disabled).performance.keepaliveTimeout = c.performance.keepaliveTimeout := by
  simp only [cfgStep, ruleHttp2Disabled]
  split <;> rfl

/-- The `perf-http2-disabled` step preserves `performance.brotli`. -/
@[simp] theorem csHttp2_brotli (c : NginxConfig) :
    (cfgStep c ruleHttp2Disabled).performance.brotli = c.performance.brotli := by
  simp only [cfgStep, ruleHttp2Disabled]
  split <;> rfl

/-- The `perf-http2-disabled` step preserves `performance.staticCaching`. -/
@[simp] theorem csHttp2_staticCaching (c : NginxConfig) :
    (cfgStep c ruleHttp2Disabled).performance.staticCaching = c.performance.staticCaching := by
  simp only [cfgStep, ruleHttp2Disabled]
  split <;> rfl

/-- The `perf-http2-disabled` step preserves `security`. -/
@[simp] theorem csHttp2_security (c : NginxConfig) :
    (cfgStep c ruleHttp2Disabled).security = c.security := by
  simp only [cfgStep, ruleHttp2Disabled]
  split <;> rfl

/-- The `perf-http2-disabled` step preserves `ssl`. -/
@[simp] theorem csHttp2_ssl (c : NginxConfig) :
    (cfgStep c ruleHttp2Disabled).ssl = c.ssl := by
  simp only [cfgStep, ruleHttp2Disabled]
  split <;> rfl

/-- The `perf-http2-disabled` step preserves `logging`. -/
@[simp] theorem csHttp2_logging (c : NginxConfig) :
    (cfgStep c ruleHttp2Disabled).logging = c.logging := by
  simp only [cfgStep, ruleHttp2Disabled]
  split <;> rfl

/-- The `perf-http2-disabled` step preserves `reverseProxy`. -/
@[simp] theorem csHttp2_reverseProxy (c : NginxConfig) :
    (cfgStep c ruleHttp2Disabled).reverseProxy = c.reverseProxy := by
  simp only [cfgStep, ruleHttp2Disabled]
  split <;> rfl

/-- Effect of the `bp-keepalive-timeout-high` step on the keepalive timeout. -/
@[simp] theorem csKeepHigh_k (c : NginxConfig) :
    (cfgStep c ruleKeepaliveHigh).performance.keepaliveTimeout =
      (if c.performance.keepaliveTimeout > 75 then 65
       else c.performance.keepaliveTimeout) := by
  simp only [cfgStep, ruleKeepaliveHigh]
  split <;> rename_i h
  · simp_all
  · have h75 : ¬ 75 < c.performance.keepaliveTimeout := by simp_all
    rw [if_neg h75]

/-- The `bp-keepalive-timeout-high` step preserves `performance.gzip`. -/
@[simp] theorem csKeepHigh_gzip (c : NginxConfig) :
    (cfgStep c ruleKeepaliveHigh).performance.gzip = c.performance.gzip := by
  simp only [cfgStep, ruleKeepaliveHigh]
  split <;> rfl

/-- The `bp-keepalive-timeout-high` step preserves `performance.http2`. -/
@[simp] theorem csKeepHigh_http2 (c : NginxConfig) :
    (cfgStep c ruleKeepaliveHigh).performance.http2 = c.performance.http2 := by
  simp only [cfgStep, ruleKeepaliveHigh]
  split <;> rfl

/-- The `bp-keepalive-timeout-high` step preserves `performance.brotli`. -/
@[simp] theorem csKeepHigh_brotli (c : NginxConfig) :
    (cfgStep c ruleKeepaliveHigh).performance.brotli = c.performance.brotli := by
  simp only [cfgStep, ruleKeepaliveHigh]
  split <;> rfl

/-- The `bp-keepalive-timeout-high` step preserves `performance.staticCaching`. -/
@[simp] theorem csKeepHigh_staticCaching (c : NginxConfig) :
    (cfgStep c ruleKeepaliveHigh).performance.staticCaching = c.performance.staticCaching := by
  simp only [cfgStep, ruleKeepaliveHigh]
  split <;> rfl

/-- The `bp-keepalive-timeout-high` step preserves `security`. -/
@[simp] theorem csKeepHigh_security (c : NginxConfig) :
    (cfgStep c ruleKeepaliveHigh).security = c.security := by
  simp only [cfgStep, ruleKeepaliveHigh]
  split <;> rfl

/-- The `bp-keepalive-timeout-high` step preserves `ssl`. -/
@[simp] theorem csKeepHigh_ssl (c : NginxConfig) :
    (cfgStep c ruleKeepaliveHigh).ssl = c.ssl := by
  simp only [cfgStep, ruleKeepaliveHigh]
  split <;> rfl

/-- The `bp-keepalive-timeout-high` step preserves `logging`. -/
@[simp] theorem csKeepHigh_logging (c : NginxConfig) :
    (cfgStep c ruleKeepaliveHigh).logging = c.logging := by
  simp only [cfgStep, ruleKeepaliveHigh]
  split <;> rfl

/-- The `bp-keepalive-timeout-high` step preserves `reverseProxy`. -/
@[simp] theorem csKeepHigh_reverseProxy (c : NginxConfig) :
    (cfgStep c ruleKeepaliveHigh).reverseProxy = c.reverseProxy := by
  simp only [cfgStep, ruleKeepaliveHigh]
  split <;> rfl

/-- Effect of the `security-ssl-protocols-outdated` step on the protocol
list. -/
@[simp] theorem csProtos_protos (c : NginxConfig) :
    (cfgStep c ruleProtocolsOutdated).ssl.protocols =
      (if (c.ssl.enabled && c.ssl.protocols.any
            (fun p => p == "TLSv1" || p == "TLSv1.1")) = true
       then c.ssl.protocols.filter (fun p => !(p == "TLSv1") && !(p == "TLSv1.1"))
       else c.ssl.protocols) := by
  simp only [cfgStep, ruleProtocolsOutdated]
  split <;> rename_i h <;> simp_all

/-- The `security-ssl-protocols-outdated` step preserves `ssl.enabled`. -/
@[simp] theorem csProtos_en (c : NginxConfig) :
    (cfgStep c ruleProtocolsOutdated).ssl.enabled = c.ssl.enabled := by
  simp only [cfgStep, ruleProtocolsOutdated]
  split <;> rfl

/-- The `security-ssl-protocols-outdated` step preserves `ssl.httpRedirect`. -/
@[simp] theorem csProtos_hr (c : NginxConfig) :
    (cfgStep c ruleProtocolsOutdated).ssl.httpRedirect = c.ssl.httpRedirect := by
  simp only [cfgStep, ruleProtocolsOutdated]
  split <;> rfl

/-- The `security-ssl-protocols-outdated` step preserves `security`. -/
@[simp] theorem csProtos_security (c : NginxConfig) :
    (cfgStep c ruleProtocolsOutdated).security = c.security := by
  simp only [cfgStep, ruleProtocolsOutdated]
  split <;> rfl

/-- The `security-ssl-protocols-outdated` step preserves `performance`. -/
@[simp] theorem csProtos_performance (c : NginxConfig) :
    (cfgStep c ruleProtocolsOutdated).performance = c.performance := by
  simp only [cfgStep, ruleProtocolsOutdated]
  split <;> rfl

/-- The `security-ssl-protocols-outdated` step preserves `logging`. -/
@[simp] theorem csProtos_logging (c : NginxConfig) :
    (cfgStep c ruleProtocolsOutdated).logging = c.logging := by
  simp only [cfgStep, ruleProtocolsOutdated]
  split <;> rfl

/-- The `security-ssl-protocols-outdated` step preserves `reverseProxy`. -/
@[simp] theorem csProtos_reverseProxy (c : NginxConfig) :
    (cfgStep c ruleProtocolsOutdated).reverseProxy = c.reverseProxy := by
  simp only [cfgStep, ruleProtocolsOutdated]
  split <;> rfl

/-- After the `security-no-rate-limiting` step, rate limiting is on. -/
@[simp] theorem csRateLim_rl (c : NginxConfig) :
    (cfgStep c ruleNoRateLimiting).security.rateLimiting = true := by
  simp only [cfgStep, ruleNoRateLimiting]
  split <;> simp_all

/-- The `security-no-rate-limiting` step preserves `hideVersion`. -/
@[simp] theorem csRateLim_hv (c : NginxConfig) :
    (cfgStep c ruleNoRateLimiting).security.hideVersion = c.security.hideVersion := by
  simp only [cfgStep, ruleNoRateLimiting]
  split <;> rfl

/-- The `security-no-rate-limiting` step preserves `securityHeaders`. -/
@[simp] theorem csRateLim_sh (c : NginxConfig) :
    (cfgStep c ruleNoRateLimiting).security.securityHeaders = c.security.securityHeaders := by
  simp only [cfgStep, ruleNoRateLimiting]
  split <;> rfl

/-- The `security-no-rate-limiting` step preserves `ssl`. -/
@[simp] theorem csRateLim_ssl (c : NginxConfig) :
    (cfgStep c ruleNoRateLimiting).ssl = c.ssl := by
  simp only [cfgStep, ruleNoRateLimiting]
  split <;> rfl

/-- The `security-no-rate-limiting` step preserves `performance`. -/
@[simp] theorem csRateLim_performance (c : NginxConfig) :
    (cfgStep c ruleNoRateLimiting).performance = c.performance := by
  simp only [cfgStep, ruleNoRateLimiting]
  split <;> rfl

/-- The `security-no-rate-limiting` step preserves `logging`. -/
@[simp] theorem csRateLim_logging (c : NginxConfig) :
    (cfgStep c ruleNoRateLimiting).logging = c.logging := by
  simp only [cfgStep, ruleNoRateLimiting]
  split <;> rfl

/-- The `security-no-rate-limiting` step preserves `reverseProxy`. -/
@[simp] theorem csRateLim_reverseProxy (c : NginxConfig) :
    (cfgStep c ruleNoRateLimiting).reverseProxy = c.reverseProxy := by
  simp only [cfgStep, ruleNoRateLimiting]
  split <;> rfl

/-- After the `perf-brotli-disabled` step, brotli is on whenever SSL is. -/
@[simp] theorem csBrotli_brotli (c : NginxConfig) :
    (cfgStep c ruleBrotliDisabled).performance.brotli =
      (c.performance.brotli || c.ssl.enabled) := by
  cases he : c.ssl.enabled <;> cases hb : c.performance.brotli <;>
    simp [cfgStep, ruleBrotliDisabled, he, hb]

/-- The `perf-brotli-disabled` step preserves `performance.gzip`. -/
@[simp] theorem csBrotli_gzip (c : NginxConfig) :
    (cfgStep c ruleBrotliDisabled).performance.gzip = c.performance.gzip := by
  simp only [cfgStep, ruleBrotliDisabled]
  split <;> rfl

/-- The `perf-brotli-disabled` step preserves `performance.http2`. -/
@[simp] theorem csBrotli_http2 (c : NginxConfig) :
    (cfgStep c ruleBrotliDisabled).performance.http2 = c.performance.http2 := by
  simp only [cfgStep, ruleBrotliDisabled]
  split <;> rfl

/-- The `perf-brotli-disabled` step preserves `performance.keepaliveTimeout`. -/
@[simp] theorem csBrotli_keepaliveTimeout (c : NginxConfig) :
    (cfgStep c ruleBrotliDisabled).performance.keepaliveTimeout = c.performance.keepaliveTimeout := by
  simp only [cfgStep, ruleBrotliDisabled]
  split <;> rfl

/-- The `perf-brotli-disabled` step preserves `performance.staticCaching`. -/
@[simp] theorem csBrotli_staticCaching (c : NginxConfig) :
    (cfgStep c ruleBrotliDisabled).performance.staticCaching = c.performance.staticCaching := by
  simp only [cfgStep, ruleBrotliDisabled]
  split <;> rfl

/-- The `perf-brotli-disabled` step preserves `security`. -/
@[simp] theorem csBrotli_security (c : NginxConfig) :
    (cfgStep c ruleBrotliDisabled).security = c.security := by
  simp only [cfgStep, ruleBrotliDisabled]
  split <;> rfl

/-- The `perf-brotli-disabled` step preserves `ssl`. -/
@[simp] theorem csBrotli_ssl (c : NginxConfig) :
    (cfgStep c ruleBrotliDisabled).ssl = c.ssl := by
  simp only [cfgStep, ruleBrotliDisabled]
  split <;> rfl

/-- The `perf-brotli-disabled` step preserves `logging`. -/
@[simp] theorem csBrotli_logging (c : NginxConfig) :
    (cfgStep c ruleBrotliDisabled).logging = c.logging := by
  simp only [cfgStep, ruleBrotliDisabled]
  split <;> rfl

/-- The `perf-brotli-disabled` step preserves `reverseProxy`. -/
@[simp] theorem csBrotli_reverseProxy (c : NginxConfig) :
    (cfgStep c ruleBrotliDisabled).reverseProxy = c.reverseProxy := by
  simp only [cfgStep, ruleBrotliDisabled]
  split <;> rfl

/-- After the `perf-no-static-caching` step, static caching is on. -/
@[simp] theorem csCaching_sc (c : NginxConfig) :
    (cfgStep c ruleNoStaticCaching).performance.staticCaching = true := by
  simp only [cfgStep, ruleNoStaticCaching]
  split <;> simp_all

/-- The `perf-no-static-caching` step preserves `performance.gzip`. -/
@[simp] theorem csCaching_gzip (c : NginxConfig) :
    (cfgStep c ruleNoStaticCaching).performance.gzip = c.performance.gzip := by
  simp only [cfgStep, ruleNoStaticCaching]
  split <;> rfl

/-- The `perf-no-static-caching` step preserves `performance.http2`. -/
@[simp] theorem csCaching_http2 (c : NginxConfig) :
    (cfgStep c ruleNoStaticCaching).performance.http2 = c.performance.http2 := by
  simp only [cfgStep, ruleNoStaticCaching]
  split <;> rfl

/-- The `perf-no-static-caching` step preserves `performance.keepaliveTimeout`. -/
@[simp] theorem csCaching_keepaliveTimeout (c : NginxConfig) :
    (cfgStep c ruleNoStaticCaching).performance.keepaliveTimeout = c.performance.keepaliveTimeout := by
  simp only [cfgStep, ruleNoStaticCaching]
  split <;> rfl

/-- The `perf-no-static-caching` step preserves `performance.brotli`. -/
@[simp] theorem csCaching_brotli (c : NginxConfig) :
    (cfgStep c ruleNoStaticCaching).performance.brotli = c.performance.brotli := by
  simp only [cfgStep, ruleNoStaticCaching]
  split <;> rfl

/-- The `perf-no-static-caching` step preserves `security`. -/
@[simp] theorem csCaching_security (c : NginxConfig) :
    (cfgStep c ruleNoStaticCaching).security = c.security := by
  simp only [cfgStep, ruleNoStaticCaching]
  split <;> rfl

/-- The `perf-no-static-caching` step preserves `ssl`. -/
@[simp] theorem csCaching_ssl (c : NginxConfig) :
    (cfgStep c ruleNoStaticCaching).ssl = c.ssl := by
  simp only [cfgStep, ruleNoStaticCaching]
  split <;> rfl

/-- The `perf-no-static-caching` step preserves `logging`. -/
@[simp] theorem csCaching_logging (c : NginxConfig) :
    (cfgStep c ruleNoStaticCaching).logging = c.logging := by
  simp only [cfgStep, ruleNoStaticCaching]
  split <;> rfl

/-- The `perf-no-static-caching` step preserves `reverseProxy`. -/
@[simp] theorem csCaching_reverseProxy (c : NginxConfig) :
    (cfgStep c ruleNoStaticCaching).reverseProxy = c.reverseProxy := by
  simp only [cfgStep, ruleNoStaticCaching]
  split <;> rfl

/-- Effect of the `perf-low-keepalive` step on the keepalive timeout. -/
@[simp] theorem csKeepLow_k (c : NginxConfig) :
    (cfgStep c ruleLowKeepalive).performance.keepaliveTimeout =
      (if c.performance.keepaliveTimeout > 0 ∧ c.performance.keepaliveTimeout < 10
       then 65 else c.performance.keepaliveTimeout) := by
  simp only [cfgStep, ruleLowKeepalive]
  split <;> rename_i h
  · simp_all
  · have hc : ¬ (0 < c.performance.keepaliveTimeout ∧
        c.performance.keepaliveTimeout < 10) := by
      intro hx
      simp_all
    rw [if_neg hc]

/-- The `perf-low-keepalive` step preserves `performance.gzip`. -/
@[simp] theorem csKeepLow_gzip (c : NginxConfig) :
    (cfgStep c ruleLowKeepalive).performance.gzip = c.performance.gzip := by
  simp only [cfgStep, ruleLowKeepalive]
  split <;> rfl

/-- The `perf-low-keepalive` step preserves `performance.http2`. -/
@[simp] theorem csKeepLow_http2 (c : NginxConfig) :
    (cfgStep c ruleLowKeepalive).performance.http2 = c.performance.http2 := by
  simp only [cfgStep, ruleLowKeepalive]
  split <;> rfl

/-- The `perf-low-keepalive` step preserves `performance.brotli`. -/
@[simp] theorem csKeepLow_brotli (c : NginxConfig) :
    (cfgStep c ruleLowKeepalive).performance.brotli = c.performance.brotli := by
  simp only [cfgStep, ruleLowKeepalive]
  split <;> rfl

/-- The `perf-low-keepalive` step preserves `performance.staticCaching`. -/
@[simp] theorem csKeepLow_staticCaching (c : NginxConfig) :
    (cfgStep c ruleLowKeepalive).performance.staticCaching = c.performance.staticCaching := by
  simp only [cfgStep, ruleLowKeepalive]
  split <;> rfl

/-- The `perf-low-keepalive` step preserves `security`. -/
@[simp] theorem csKeepLow_security (c : NginxConfig) :
    (cfgStep c ruleLowKeepalive).security = c.security := by
  simp only [cfgStep, ruleLowKeepalive]
  split <;> rfl

/-- The `perf-low-keepalive` step preserves `ssl`. -/
@[simp] theorem csKeepLow_ssl (c : NginxConfig) :
    (cfgStep c ruleLowKeepalive).ssl = c.ssl := by
  simp only [cfgStep, ruleLowKeepalive]
  split <;> rfl

/-- The `perf-low-keepalive` step preserves `logging`. -/
@[simp] theorem csKeepLow_logging (c : NginxConfig) :
    (cfgStep c ruleLowKeepalive).logging = c.logging := by
  simp only [cfgStep, ruleLowKeepalive]
  split <;> rfl

/-- The `perf-low-keepalive` step preserves `reverseProxy`. -/
@[simp] theorem csKeepLow_reverseProxy (c : NginxConfig) :
    (cfgStep c ruleLowKeepalive).reverseProxy = c.reverseProxy := by
  simp only [cfgStep, ruleLowKeepalive]
  split <;> rfl

/-- After the `bp-logging-disabled` step, access logging is on. -/
@[simp] theorem csLogging_al (c : NginxConfig) :
    (cfgStep c ruleLoggingDisabled).logging.accessLog = true := by
  simp only [cfgStep, ruleLoggingDisabled]
  split <;> simp_all

/-- The `bp-logging-disabled` step preserves `security`. -/
@[simp] theorem csLogging_security (c : NginxConfig) :
    (cfgStep c ruleLoggingDisabled).security = c.security := by
  simp only [cfgStep, ruleLoggingDisabled]
  split <;> rfl

/-- The `bp-logging-disabled` step preserves `ssl`. -/
@[simp] theorem csLogging_ssl (c : NginxConfig) :
    (cfgStep c ruleLoggingDisabled).ssl = c.ssl := by
  simp only [cfgStep, ruleLoggingDisabled]
  split <;> rfl

/-- The `bp-logging-disabled` step preserves `performance`. -/
@[simp] theorem csLogging_performance (c : NginxConfig) :
    (cfgStep c ruleLoggingDisabled).performance = c.performance := by
  simp only [cfgStep, ruleLoggingDisabled]
  split <;> rfl

/-- The `bp-logging-disabled` step preserves `reverseProxy`. -/
@[simp] theorem csLogging_reverseProxy (c : NginxConfig) :
    (cfgStep c ruleLoggingDisabled).reverseProxy = c.reverseProxy := by
  simp only [cfgStep, ruleLoggingDisabled]
  split <;> rfl

/-- One full sweep of the fix-rule loop leaves a model on which no fixable
rule fires, whatever the input model: each fix clears its own test and no
later fix in the sweep re-triggers an earlier one. -/
theorem sweep_clean (c : NginxConfig) : CleanFix (rules.foldl cfgStep c) := by
  simp only [rules, List.foldl_cons, List.foldl_nil]
  refine ⟨?_, ?_, ?_, ?_, ?_, ?_, ?_, ?_, ?_, ?_, ?_, ?_, ?_⟩ <;> simp
  · exact fun h _ => h
  · split_ifs <;> omega
  · intro hen x hx
    split_ifs at hx with hc
    · simp at hx
      exact ⟨hx.2.1, hx.2.2⟩
    · constructor
      · intro hx1
        exact hc ⟨hen, ⟨x, hx, Or.inl hx1⟩⟩
      · intro hx2
        exact hc ⟨hen, ⟨x, hx, Or.inr hx2⟩⟩
  · exact fun h _ => h
  · split_ifs <;> omega

/-- On a model where no fixable rule fires, a sweep of the fix-rule loop is
the identity on the whole sweep state. -/
theorem cleanSweep (c : NginxConfig) (h : CleanFix c) (ids : List String) (b : Bool) :
    rules.foldl runFixRule ⟨c, ids, b⟩ = ⟨c, ids, b⟩ := by
  obtain ⟨h1, h2, h3, h4, h5, h6, h7, h8, h9, h10, h11, h12, h13⟩ := h
  simp only [rules, List.foldl_cons, List.foldl_nil]
  rw [runFixRule_skip ⟨c, ids, b⟩ ruleServerTokens
        (show (!c.security.hideVersion) = false by simp [h1]),
      runFixRule_skip ⟨c, ids, b⟩ ruleHeadersMissing
        (show (!c.security.securityHeaders) = false by simp [h2]),
      runFixRule_nofix ⟨c, ids, b⟩ ruleSslMissing rfl,
      runFixRule_nofix ⟨c, ids, b⟩ ruleSslMissingCerts rfl,
      runFixRule_skip ⟨c, ids, b⟩ ruleHttpRedirectWithoutSsl h3,
      runFixRule_nofix ⟨c, ids, b⟩ ruleUpstreamNeedsSsl rfl,
      runFixRule_skip ⟨c, ids, b⟩ ruleProxyWithoutBackend h4,
      runFixRule_skip ⟨c, ids, b⟩ ruleGzipDisabled
        (show (!c.performance.gzip) = false by simp [h5]),
      runFixRule_skip ⟨c, ids, b⟩ ruleHttp2Disabled h6,
      runFixRule_skip ⟨c, ids, b⟩ ruleWorkerConnectionsLow rfl,
      runFixRule_skip ⟨c, ids, b⟩ ruleKeepaliveHigh h7,
      runFixRule_skip ⟨c, ids, b⟩ ruleProtocolsOutdated h8,
      runFixRule_skip ⟨c, ids, b⟩ ruleNoRateLimiting
        (show (!c.security.rateLimiting) = false by simp [h9]),
      runFixRule_nofix ⟨c, ids, b⟩ ruleBasicAuthNoSsl rfl,
      runFixRule_nofix ⟨c, ids, b⟩ ruleOpenAutoindex rfl,
      runFixRule_skip ⟨c, ids, b⟩ ruleBrotliDisabled h10,
      runFixRule_skip ⟨c, ids, b⟩ ruleNoStaticCaching
        (show (!c.performance.staticCaching) = false by simp [h11]),
      runFixRule_nofix ⟨c, ids, b⟩ ruleLargeClientBody rfl,
      runFixRule_skip ⟨c, ids, b⟩ ruleLowKeepalive h12,
      runFixRule_nofix ⟨c, ids, b⟩ ruleMissingRootOrProxy rfl,
      runFixRule_nofix ⟨c, ids, b⟩ ruleSingleServerUpstream rfl,
      runFixRule_skip ⟨c, ids, b⟩ ruleLoggingDisabled
        (show (!c.logging.accessLog) = false by simp [h13])]
/-- One-step unfolding of the pass loop of `applyAllLintFixes`. -/
theorem aux_succ (n : Nat) (c : NginxConfig) (ids : List String)
    (seen : List NginxConfig) :
    applyAllLintFixesAux (n + 1) c ids seen =
      if (rules.foldl runFixRule ⟨c, ids, false⟩).config ∈ seen then
        ((rules.foldl runFixRule ⟨c, ids, false⟩).config,
          (rules.foldl runFixRule ⟨c, ids, false⟩).ids)
      else if (rules.foldl runFixRule ⟨c, ids, false⟩).changed = false then
        ((rules.foldl runFixRule ⟨c, ids, false⟩).config,
          (rules.foldl runFixRule ⟨c, ids, false⟩).ids)
      else applyAllLintFixesAux n (rules.foldl runFixRule ⟨c, ids, false⟩).config
        (rules.foldl runFixRule ⟨c, ids, false⟩).ids
        (seen ++ [(rules.foldl runFixRule ⟨c, ids, false⟩).config]) := rfl
/-- Any pass-loop run with at least one pass of budget ends on a model on
which no fixable rule fires. -/
theorem aux_clean (n : Nat) : ∀ (c : NginxConfig) (ids : List String)
    (seen : List NginxConfig),
    CleanFix ((applyAllLintFixesAux (n + 1) c ids seen).1) := by
  induction n with
  | zero =>
    intro c ids seen
    have hs : CleanFix ((rules.foldl runFixRule ⟨c, ids, false⟩).config) := by
      rw [foldl_runFixRule_config]
      exact sweep_clean c
    rw [aux_succ]
    split_ifs <;> exact hs
  | succ n ih =>
    intro c ids seen
    have hs : CleanFix ((rules.foldl runFixRule ⟨c, ids, false⟩).config) := by
      rw [foldl_runFixRule_config]
      exact sweep_clean c
    rw [aux_succ]
    split_ifs
    · exact hs
    · exact hs
    · exact ih _ _ _

/-- Defining equation of `applyAllLintFixes` in terms of its pass loop. -/
theorem applyAllLintFixes_eq (c : NginxConfig) (m : Nat) :
    applyAllLintFixes c m =
      { config := (applyAllLintFixesAux m c [] [c]).1
        applied := if (applyAllLintFixesAux m c [] [c]).1 = c then false else true
        appliedRuleIds := (applyAllLintFixesAux m c [] [c]).2 } := rfl
/-- C2 — idempotent fix-all: for every Model, running `applyAllLintFixes`
(with its default budget of 3 passes) a second time on the config returned by
a first run reports `applied = false` with an empty `appliedRuleIds` list. -/
theorem c2_fixall_idempotent (c : NginxConfig) :
    (applyAllLintFixes (applyAllLintFixes c 3).config 3).applied = false ∧
    (applyAllLintFixes (applyAllLintFixes c 3).config 3).appliedRuleIds = [] := by
  have hclean : CleanFix (applyAllLintFixes c 3).config := aux_clean 2 c [] [c]
  have hsweep := cleanSweep (applyAllLintFixes c 3).config hclean [] false
  have haux : applyAllLintFixesAux 3 (applyAllLintFixes c 3).config []
      [(applyAllLintFixes c 3).config] =
      ((applyAllLintFixes c 3).config, []) := by
    rw [show (3 : Nat) = 2 + 1 from rfl, aux_succ, hsweep]
    simp
  rw [applyAllLintFixes_eq, haux]
  simp

/-- Four-space indentation helper `ind` of both generator variants. -/
def ind (level : Nat) : String := String.join (List.replicate level "    ")

/-- Modelled from the spec: the preset table of `engine/ssl-ciphers.ts`
(`sslPresets`), which is not among the sources; spec section 4.4 fixes only
that the SSL sub-block "emits session cache/timeout/ticket settings from the
preset's fixed table", so representative fixed values are used. -/
structure SslPresetEntry where
  preferServerCiphers : Bool
  sessionTimeout : String
  sessionTickets : Bool

/-- Modelled from the spec: preset lookup of `engine/ssl-ciphers.ts`. -/
def sslPresets (preset : String) : SslPresetEntry :=
  if preset == "modern" then
    { preferServerCiphers := false, sessionTimeout := "1d", sessionTickets := false }
  else if preset == "legacy" then
    { preferServerCiphers := true, sessionTimeout := "1d", sessionTickets := false }
  else
    { preferServerCiphers := false, sessionTimeout := "1d", sessionTickets := false }

/-- Modelled from the spec: `getCiphersForPreset` of `engine/ssl-ciphers.ts`
(not among the sources); a fixed non-empty cipher string per preset. -/
def getCiphersForPreset (preset : String) : String :=
  if preset == "modern" then "TLS_AES_128_GCM_SHA256:TLS_AES_256_GCM_SHA384"
  else if preset == "legacy" then "ECDHE-RSA-AES128-GCM-SHA256:AES128-SHA"
  else "ECDHE-ECDSA-AES128-GCM-SHA256:ECDHE-RSA-AES128-GCM-SHA256"

/-- Upstream block of the engine generator (`engine/generator.ts`,
`generateNginxConfig`, upstream section). -/
def engineUpstreamLines (c : NginxConfig) : List String :=
  if c.upstream.enabled && c.upstream.servers.length > 0 then
    ["# ─── Load Balancing ─────────────────────────────────────────────",
     "upstream " ++ c.upstream.name ++ " \x7b"]
    ++ (if c.upstream.method != "round-robin" then [ind 1 ++ c.upstream.method ++ ";"] else [])
    ++ c.upstream.servers.map (fun srv =>
        ind 1 ++ "server " ++ srv.address
        ++ (if srv.weight != 0 && srv.weight > 1 then " weight=" ++ toString srv.weight else "")
        ++ (if srv.maxFails != 1 then " max_fails=" ++ toString srv.maxFails else "")
        ++ (if srv.failTimeout != 0 && srv.failTimeout != 10 then
              " fail_timeout=" ++ toString srv.failTimeout else "")
        ++ ";")
    ++ ["\x7d", ""]
  else []

/-- Rate-limit zone of the engine generator. -/
def engineRateZoneLines (c : NginxConfig) : List String :=
  if c.security.rateLimiting then
    ["# ─── Rate Limiting ──────────────────────────────────────────────",
     "limit_req_zone $binary_remote_addr zone=req_limit:10m rate="
       ++ toString (if c.security.rateLimit = 0 then 10 else c.security.rateLimit) ++ "r/s;",
     ""]
  else []

/-- HTTP-to-HTTPS redirect block of the engine generator: emitted only when
SSL and the redirect flag are both set; the IPv6 dual listen line is emitted
unconditionally; the redirect target uses `$server_name`. -/
def engineRedirectLines (c : NginxConfig) : List String :=
  if c.ssl.enabled && c.ssl.httpRedirect then
    ["# ─── HTTP to HTTPS Redirect ─────────────────────────────────────",
     "server \x7b", ind 1 ++ "listen 80;", ind 1 ++ "listen [::]:80;"]
    ++ (if truthy c.serverName then [ind 1 ++ "server_name " ++ c.serverName ++ ";"] else [])
    ++ [ind 1 ++ "return 301 https://$server_name$request_uri;", "\x7d", ""]
  else []

/-- Listen directives of the engine generator's main server block. -/
def engineListenLines (c : NginxConfig) : List String :=
  let ssl := if c.ssl.enabled then " ssl" else ""
  let http2 := if c.performance.http2 && c.ssl.enabled then " http2" else ""
  [ind 1 ++ "listen " ++ toString c.listenPort ++ ssl ++ http2 ++ ";",
   ind 1 ++ "listen [::]:" ++ toString c.listenPort ++ ssl ++ http2 ++ ";"]

/-- Server name, root and index lines of the engine generator's main block. -/
def engineHeadLines (c : NginxConfig) : List String :=
  (if truthy c.serverName then [ind 1 ++ "server_name " ++ c.serverName ++ ";"] else [])
  ++ (if truthy c.rootPath then [ind 1 ++ "root " ++ c.rootPath ++ ";"] else [])
  ++ (if c.indexFiles.length > 0 then
        [ind 1 ++ "index " ++ String.intercalate " " c.indexFiles ++ ";"] else [])
  ++ [""]

/-- Mirrors `generateSSLBlock` of `engine/generator.ts` (preset data comes
from the spec-modelled `ssl-ciphers` module above). -/
def engineSSLBlock (c : NginxConfig) : List String :=
  let presetKey := if c.ssl.preset == "" then "intermediate" else c.ssl.preset
  let preset := sslPresets presetKey
  let ciphers := getCiphersForPreset presetKey
  [ind 1 ++ "# ─── SSL Configuration ───",
   ind 1 ++ "ssl_certificate "
     ++ (if c.ssl.certificatePath == "" then "/etc/ssl/certs/cert.pem"
         else c.ssl.certificatePath) ++ ";",
   ind 1 ++ "ssl_certificate_key "
     ++ (if c.ssl.keyPath == "" then "/etc/ssl/private/key.pem" else c.ssl.keyPath) ++ ";",
   ind 1 ++ "ssl_protocols " ++ String.intercalate " " c.ssl.protocols ++ ";"]
  ++ (if ciphers != "" then [ind 1 ++ "ssl_ciphers \x27" ++ ciphers ++ "\x27;"] else [])
  ++ [ind 1 ++ "ssl_prefer_server_ciphers "
        ++ (if preset.preferServerCiphers then "on" else "off") ++ ";",
      ind 1 ++ "ssl_session_timeout " ++ preset.sessionTimeout ++ ";",
      ind 1 ++ "ssl_session_cache shared:SSL:10m;",
      ind 1 ++ "ssl_session_tickets "
        ++ (if preset.sessionTickets then "on" else "off") ++ ";"]
  ++ (if c.ssl.enableHSTS then
        [ind 1 ++ "add_header Strict-Transport-Security \"max-age=63072000; includeSubDomains; preload\" always;"]
      else [])
  ++ (if c.ssl.enableOCSP then
        [ind 1 ++ "ssl_stapling on;", ind 1 ++ "ssl_stapling_verify on;"] else [])
  ++ [""]

/-- Mirrors `generateSecurityBlock` of `engine/generator.ts`. -/
def engineSecurityBlock (c : NginxConfig) : List String :=
  [ind 1 ++ "# ─── Security ───"]
  ++ (if c.security.hideVersion then [ind 1 ++ "server_tokens off;"] else [])
  ++ (if c.security.securityHeaders then
        [ind 1 ++ "add_header X-Frame-Options \"SAMEORIGIN\" always;",
         ind 1 ++ "add_header X-Content-Type-Options \"nosniff\" always;",
         ind 1 ++ "add_header Referrer-Policy \"strict-origin-when-cross-origin\" always;"]
      else [])
  ++ (c.security.ipAllowlist.filterMap (fun ip =>
        if truthy (jsTrim ip) then some (ind 1 ++ "allow " ++ jsTrim ip ++ ";") else none))
  ++ (c.security.ipDenylist.filterMap (fun ip =>
        if truthy (jsTrim ip) then some (ind 1 ++ "deny " ++ jsTrim ip ++ ";") else none))
  ++ (if c.security.basicAuth then
        [ind 1 ++ "auth_basic \""
           ++ (if c.security.basicAuthRealm == "" then "Restricted Area"
               else c.security.basicAuthRealm) ++ "\";",
         ind 1 ++ "auth_basic_user_file "
           ++ (if c.security.basicAuthFile == "" then "/etc/nginx/.htpasswd"
               else c.security.basicAuthFile) ++ ";"]
      else [])
  ++ [""]

/-- Mirrors `generatePerformanceBlock` of `engine/generator.ts`; note the
`client_max_body_size` line appends the raw unit enum string (`MB`/`GB`). -/
def enginePerformanceBlock (c : NginxConfig) : List String :=
  [ind 1 ++ "# ─── Performance ───"]
  ++ (if c.performance.gzip then
        [ind 1 ++ "gzip on;", ind 1 ++ "gzip_vary on;", ind 1 ++ "gzip_proxied any;"]
        ++ (if c.performance.gzipTypes.length > 0 then
              [ind 1 ++ "gzip_types " ++ String.intercalate " " c.performance.gzipTypes ++ ";"]
            else
              [ind 1 ++ "gzip_types text/plain text/css application/json application/javascript text/xml application/xml application/xml+rss text/javascript;"])
      else [])
  ++ (if c.performance.brotli then [ind 1 ++ "brotli on;"] else [])
  ++ (if c.performance.clientMaxBodySize != 0 then
        [ind 1 ++ "client_max_body_size " ++ toString c.performance.clientMaxBodySize
           ++ c.performance.clientMaxBodyUnit ++ ";"]
      else [])
  ++ (if c.performance.keepaliveTimeout != 0 then
        [ind 1 ++ "keepalive_timeout " ++ toString c.performance.keepaliveTimeout ++ "s;"]
      else [])
  ++ (if c.performance.workerConnections != 0 then
        [ind 1 ++ "# worker_connections " ++ toString c.performance.workerConnections
           ++ "; # (Global setting)"]
      else [])
  ++ [""]

/-- Mirrors `generateLoggingBlock` of `engine/generator.ts`. -/
def engineLoggingBlock (c : NginxConfig) : List String :=
  [ind 1 ++ "# ─── Logging ───"]
  ++ (if c.logging.accessLog then
        [ind 1 ++ "access_log "
           ++ (if c.logging.accessLogPath == "" then "/var/log/nginx/access.log"
               else c.logging.accessLogPath) ++ ";"]
      else [ind 1 ++ "access_log off;"])
  ++ (if c.logging.errorLog then
        [ind 1 ++ "error_log "
           ++ (if c.logging.errorLogPath == "" then "/var/log/nginx/error.log"
               else c.logging.errorLogPath) ++ " "
           ++ (if c.logging.errorLogLevel == "" then "error" else c.logging.errorLogLevel) ++ ";"]
      else [])
  ++ [""]

/-- Mirrors `generateLocationBlock` of `engine/generator.ts`. -/
def engineLocationBlock (loc : LocationConfig) (c : NginxConfig) : List String :=
  let locationDirective :=
    if loc.matchType == "exact" then "= " ++ loc.path
    else if loc.matchType == "regex" then "~ " ++ loc.path
    else if loc.matchType == "regex_case_insensitive" then "~* " ++ loc.path
    else loc.path
  [ind 1 ++ "location " ++ locationDirective ++ " \x7b"]
  ++ (if c.security.rateLimiting then
        [ind 2 ++ "limit_req zone=req_limit burst="
           ++ toString (if c.security.rateBurst = 0 then 5 else c.security.rateBurst)
           ++ " nodelay;"]
      else [])
  ++ (if loc.type == "static" then
        (if truthy loc.root then [ind 2 ++ "root " ++ loc.root ++ ";"] else [])
        ++ (if truthy loc.tryFiles then [ind 2 ++ "try_files " ++ loc.tryFiles ++ ";"] else [])
        ++ (if truthy loc.index then [ind 2 ++ "index " ++ loc.index ++ ";"] else [])
        ++ (if loc.autoindex then [ind 2 ++ "autoindex on;"] else [])
        ++ (if truthy loc.cacheExpiry then
              [ind 2 ++ "expires " ++ loc.cacheExpiry ++ ";",
               ind 2 ++ "add_header Cache-Control \"public\";"]
            else [])
      else if loc.type == "proxy" then
        (if truthy loc.proxyPass then
          [ind 2 ++ "proxy_pass " ++ loc.proxyPass ++ ";",
           ind 2 ++ "proxy_http_version 1.1;",
           ind 2 ++ "proxy_set_header Host $host;",
           ind 2 ++ "proxy_set_header X-Real-IP $remote_addr;",
           ind 2 ++ "proxy_set_header X-Forwarded-For $proxy_add_x_forwarded_for;",
           ind 2 ++ "proxy_set_header X-Forwarded-Proto $scheme;"]
          ++ (if loc.proxyWebSocket then
                [ind 2 ++ "proxy_set_header Upgrade $http_upgrade;",
                 ind 2 ++ "proxy_set_header Connection \"upgrade\";"]
              else [])
          ++ (loc.proxyHeaders.filterMap (fun h =>
                if truthy h.1 && truthy h.2 then
                  some (ind 2 ++ "proxy_set_header " ++ h.1 ++ " " ++ h.2 ++ ";")
                else none))
        else [])
      else if loc.type == "redirect" then
        (if truthy loc.redirectUrl then
          [ind 2 ++ "return " ++ toString loc.redirectCode ++ " " ++ loc.redirectUrl ++ ";"]
        else [])
      else if loc.type == "custom" then
        ((jsSplitLines loc.customDirectives).filterMap (fun line =>
          if truthy (jsTrim line) then some (ind 2 ++ line) else none))
      else [])
  ++ [ind 1 ++ "\x7d", ""]

/-- Synthetic default location the engine generator substitutes when the
Model's location list is empty (static, path `/`, `try_files` fallback),
regardless of the reverse-proxy flag. -/
def engineDefaultLocation (c : NginxConfig) : LocationConfig :=
  { id := "default", path := "/", matchType := "prefix", type := "static"
    root := if truthy c.rootPath then c.rootPath else "/var/www/html"
    tryFiles := "$uri $uri/ =404"
    index := "", autoindex := false, cacheExpiry := "", proxyPass := ""
    proxyWebSocket := false, proxyHeaders := [], redirectUrl := ""
    redirectCode := 301, customDirectives := "" }

/-- Locations section of the engine generator. -/
def engineLocationsSection (c : NginxConfig) : List String :=
  let locations :=
    if c.locations.length > 0 then c.locations else [engineDefaultLocation c]
  [ind 1 ++ "# ─── Location Blocks ───"]
  ++ (locations.map (fun loc => engineLocationBlock loc c)).flatten

/-- Static-caching catch-all of the engine generator. -/
def engineStaticCachingLines (c : NginxConfig) : List String :=
  if c.performance.staticCaching then
    [ind 1 ++ "# ─── Static Asset Caching assuming default locations or overrides ───",
     ind 1 ++ "location ~* \\.(jpg|jpeg|png|gif|ico|svg|webp|avif|css|js)$ \x7b",
     ind 2 ++ "expires "
       ++ (if truthy c.performance.cacheExpiry then c.performance.cacheExpiry else "30d") ++ ";",
     ind 2 ++ "add_header Cache-Control \"public, no-transform\";",
     ind 1 ++ "\x7d", ""]
  else []

/-- Top-level custom-directives section of the engine generator. -/
def engineCustomLines (c : NginxConfig) : List String :=
  match c.customDirectives with
  | none => []
  | some s =>
    if s == "" then []
    else
      [ind 1 ++ "# ─── Custom Directives ───"]
      ++ ((jsSplitLines s).filterMap (fun line =>
            if truthy (jsTrim line) then some (ind 1 ++ line) else none))
      ++ [""]

/-- Mirrors `generateNginxConfig` of `engine/generator.ts` as the list of
emitted lines, in source emission order. The `warnings` component of the
source's `GenerationResult` comes from the `validator` module (not among the
sources) and does not influence the emitted text, so it is not modelled. -/
def generateNginxConfigEngineLines (c : NginxConfig) : List String :=
  engineUpstreamLines c ++ engineRateZoneLines c ++ engineRedirectLines c
  ++ ["# ─── Main Server Block ──────────────────────────────────────────", "server \x7b"]
  ++ engineListenLines c ++ engineHeadLines c
  ++ (if c.ssl.enabled then engineSSLBlock c else [])
  ++ engineSecurityBlock c ++ enginePerformanceBlock c ++ engineLoggingBlock c
  ++ engineLocationsSection c
  ++ engineStaticCachingLines c
  ++ engineCustomLines c
  ++ ["\x7d"]

/-- Emitted text of the engine generator (`lines.join('\n')`). -/
def generateNginxConfigEngine (c : NginxConfig) : String :=
  String.intercalate "\n" (generateNginxConfigEngineLines c)

/-- Upstream block of the lib generator (`lib/nginx/generator.ts`,
`generateNginxConfig`): note the `backend` name fallback, `max_fails`
emitted whenever positive and `fail_timeout` with an `s` suffix. -/
def libUpstreamLines (c : NginxConfig) : List String :=
  if c.upstream.enabled && c.upstream.servers.length > 0 then
    ["# ─── Load Balancing ───────────────────────────",
     "upstream " ++ (if c.upstream.name == "" then "backend" else c.upstream.name) ++ " \x7b"]
    ++ (if c.upstream.method != "round-robin" then [ind 1 ++ c.upstream.method ++ ";"] else [])
    ++ c.upstream.servers.map (fun srv =>
        ind 1 ++ "server " ++ srv.address
        ++ (if srv.weight > 1 then " weight=" ++ toString srv.weight else "")
        ++ (if srv.maxFails > 0 then " max_fails=" ++ toString srv.maxFails else "")
        ++ (if srv.failTimeout > 0 then " fail_timeout=" ++ toString srv.failTimeout ++ "s" else "")
        ++ ";")
    ++ ["\x7d", ""]
  else []

/-- HTTP-to-HTTPS redirect block of the lib generator: emitted only when SSL
and the redirect flag are both set; the IPv6 dual listen line is emitted
unconditionally; the redirect target preserves the request host (`$host`). -/
def libRedirectLines (c : NginxConfig) : List String :=
  if c.ssl.enabled && c.ssl.httpRedirect then
    ["# ─── HTTP to HTTPS Redirect ───────────────────",
     "server \x7b", ind 1 ++ "listen 80;", ind 1 ++ "listen [::]:80;"]
    ++ (if truthy c.serverName then [ind 1 ++ "server_name " ++ c.serverName ++ ";"] else [])
    ++ [ind 1 ++ "return 301 https://$host$request_uri;", "\x7d", ""]
  else []

/-- Rate-limit zone of the lib generator (emitted after the redirect block). -/
def libRateZoneLines (c : NginxConfig) : List String :=
  if c.security.rateLimiting then
    ["# ─── Rate Limiting Zone ───────────────────────",
     "limit_req_zone $binary_remote_addr zone=ratelimit:10m rate="
       ++ toString c.security.rateLimit ++ "r/s;",
     ""]
  else []

/-- Listen directives of the lib generator's main block: with SSL enabled the
port is 443 when `listen443` is set, else `listenPort`. -/
def libListenLines (c : NginxConfig) : List String :=
  if c.ssl.enabled then
    [ind 1 ++ "listen " ++ (if c.listen443 then "443" else toString c.listenPort)
       ++ " ssl" ++ (if c.performance.http2 then " http2" else "") ++ ";",
     ind 1 ++ "listen [::]:" ++ (if c.listen443 then "443" else toString c.listenPort)
       ++ " ssl" ++ (if c.performance.http2 then " http2" else "") ++ ";"]
  else
    [ind 1 ++ "listen " ++ toString c.listenPort ++ ";",
     ind 1 ++ "listen [::]:" ++ toString c.listenPort ++ ";"]

/-- Server name, root and index lines of the lib generator's main block: the
root/index lines are emitted only when the reverse proxy is disabled. -/
def libHeadLines (c : NginxConfig) : List String :=
  (if truthy c.serverName then [ind 1 ++ "server_name " ++ c.serverName ++ ";"] else [])
  ++ (if !c.reverseProxy.enabled then
        [ind 1 ++ "root " ++ c.rootPath ++ ";"]
        ++ (if c.indexFiles.length > 0 then
              [ind 1 ++ "index " ++ String.intercalate " " c.indexFiles ++ ";"] else [])
      else [])
  ++ [""]

/-- SSL block of the lib generator, with its three inline cipher presets. -/
def libSSLBlock (c : NginxConfig) : List String :=
  if c.ssl.enabled then
    [ind 1 ++ "# ─── SSL Configuration ───",
     ind 1 ++ "ssl_certificate "
       ++ (if c.ssl.certificatePath == "" then "/etc/ssl/certs/cert.pem"
           else c.ssl.certificatePath) ++ ";",
     ind 1 ++ "ssl_certificate_key "
       ++ (if c.ssl.keyPath == "" then "/etc/ssl/private/key.pem" else c.ssl.keyPath) ++ ";",
     ind 1 ++ "ssl_protocols " ++ String.intercalate " " c.ssl.protocols ++ ";"]
    ++ (if c.ssl.preset == "modern" then
          [ind 1 ++ "ssl_ciphers \x27ECDHE-ECDSA-AES128-GCM-SHA256:ECDHE-RSA-AES128-GCM-SHA256:ECDHE-ECDSA-AES256-GCM-SHA384:ECDHE-RSA-AES256-GCM-SHA384\x27;"]
        else if c.ssl.preset == "intermediate" then
          [ind 1 ++ "ssl_ciphers \x27ECDHE-ECDSA-AES128-GCM-SHA256:ECDHE-RSA-AES128-GCM-SHA256:ECDHE-ECDSA-AES256-GCM-SHA384:ECDHE-RSA-AES256-GCM-SHA384:DHE-RSA-AES128-GCM-SHA256:DHE-RSA-AES256-GCM-SHA384\x27;"]
        else
          [ind 1 ++ "ssl_ciphers \x27ECDHE-ECDSA-AES128-GCM-SHA256:ECDHE-RSA-AES128-GCM-SHA256:ECDHE-ECDSA-AES256-GCM-SHA384:ECDHE-RSA-AES256-GCM-SHA384:DHE-RSA-AES128-GCM-SHA256:DHE-RSA-AES256-GCM-SHA384:ECDHE-ECDSA-AES128-SHA256:ECDHE-RSA-AES128-SHA256\x27;"])
    ++ [ind 1 ++ "ssl_prefer_server_ciphers on;"]
    ++ (if c.ssl.enableHSTS then
          [ind 1 ++ "add_header Strict-Transport-Security \"max-age=63072000; includeSubDomains; preload\" always;"]
        else [])
    ++ (if c.ssl.enableOCSP then
          [ind 1 ++ "ssl_stapling on;", ind 1 ++ "ssl_stapling_verify on;"] else [])
    ++ [""]
  else []

/-- Security block of the lib generator: skipped entirely when nothing in it
is active; includes the `X-XSS-Protection` header. -/
def libSecurityBlock (c : NginxConfig) : List String :=
  if c.security.hideVersion || c.security.securityHeaders || c.security.basicAuth
      || c.security.rateLimiting || c.security.ipAllowlist.length > 0
      || c.security.ipDenylist.length > 0 then
    [ind 1 ++ "# ─── Security ───"]
    ++ (if c.security.hideVersion then [ind 1 ++ "server_tokens off;"] else [])
    ++ (if c.security.securityHeaders then
          [ind 1 ++ "add_header X-Frame-Options \"SAMEORIGIN\" always;",
           ind 1 ++ "add_header X-Content-Type-Options \"nosniff\" always;",
           ind 1 ++ "add_header Referrer-Policy \"strict-origin-when-cross-origin\" always;",
           ind 1 ++ "add_header X-XSS-Protection \"1; mode=block\" always;"]
        else [])
    ++ (c.security.ipAllowlist.filterMap (fun ip =>
          if truthy (jsTrim ip) then some (ind 1 ++ "allow " ++ jsTrim ip ++ ";") else none))
    ++ (c.security.ipDenylist.filterMap (fun ip =>
          if truthy (jsTrim ip) then some (ind 1 ++ "deny " ++ jsTrim ip ++ ";") else none))
    ++ (if c.security.basicAuth then
          [ind 1 ++ "auth_basic \""
             ++ (if c.security.basicAuthRealm == "" then "Restricted"
                 else c.security.basicAuthRealm) ++ "\";",
           ind 1 ++ "auth_basic_user_file "
             ++ (if c.security.basicAuthFile == "" then "/etc/nginx/.htpasswd"
                 else c.security.basicAuthFile) ++ ";"]
        else [])
    ++ [""]
  else []

/-- Performance block of the lib generator: skipped entirely when nothing is
active; the `client_max_body_size` suffix is the letter `g` for `GB` and `m`
otherwise. -/
def libPerformanceBlock (c : NginxConfig) : List String :=
  if c.performance.gzip || c.performance.brotli || c.performance.clientMaxBodySize > 0
      || c.performance.keepaliveTimeout > 0 then
    [ind 1 ++ "# ─── Performance ───"]
    ++ (if c.performance.gzip then
          [ind 1 ++ "gzip on;", ind 1 ++ "gzip_vary on;", ind 1 ++ "gzip_proxied any;",
           ind 1 ++ "gzip_comp_level 6;"]
          ++ (if c.performance.gzipTypes.length > 0 then
                [ind 1 ++ "gzip_types " ++ String.intercalate " " c.performance.gzipTypes ++ ";"]
              else [])
        else [])
    ++ (if c.performance.brotli then
          [ind 1 ++ "brotli on;", ind 1 ++ "brotli_comp_level 6;",
           ind 1 ++ "brotli_types text/plain text/css application/json application/javascript text/xml application/xml application/xml+rss text/javascript;"]
        else [])
    ++ (if c.performance.clientMaxBodySize > 0 then
          [ind 1 ++ "client_max_body_size " ++ toString c.performance.clientMaxBodySize
             ++ (if c.performance.clientMaxBodyUnit == "GB" then "g" else "m") ++ ";"]
        else [])
    ++ (if c.performance.keepaliveTimeout > 0 then
          [ind 1 ++ "keepalive_timeout " ++ toString c.performance.keepaliveTimeout ++ "s;"]
        else [])
    ++ [""]
  else []

/-- Logging block of the lib generator: emitted only when access or error
logging is on. -/
def libLoggingBlock (c : NginxConfig) : List String :=
  if c.logging.accessLog || c.logging.errorLog then
    [ind 1 ++ "# ─── Logging ───"]
    ++ (if c.logging.accessLog then
          [ind 1 ++ "access_log "
             ++ (if c.logging.accessLogPath == "" then "/var/log/nginx/access.log"
                 else c.logging.accessLogPath) ++ ";"]
        else [ind 1 ++ "access_log off;"])
    ++ (if c.logging.errorLog then
          [ind 1 ++ "error_log "
             ++ (if c.logging.errorLogPath == "" then "/var/log/nginx/error.log"
                 else c.logging.errorLogPath) ++ " " ++ c.logging.errorLogLevel ++ ";"]
        else [])
    ++ [""]
  else []

/-- Default reverse-proxy location of the lib generator: emitted when the
reverse proxy is enabled and the location list is empty, with a
`http://127.0.0.1:3000` fallback when the backend address is blank. -/
def libReverseProxyLines (c : NginxConfig) : List String :=
  if c.reverseProxy.enabled && c.locations.length == 0 then
    [ind 1 ++ "# ─── Reverse Proxy ───",
     ind 1 ++ "location / \x7b",
     ind 2 ++ "proxy_pass "
       ++ (if c.reverseProxy.backendAddress == "" then "http://127.0.0.1:3000"
           else c.reverseProxy.backendAddress) ++ ";",
     ind 2 ++ "proxy_http_version 1.1;"]
    ++ (if c.reverseProxy.webSocket then
          [ind 2 ++ "proxy_set_header Upgrade $http_upgrade;",
           ind 2 ++ "proxy_set_header Connection \"upgrade\";"]
        else [])
    ++ (if c.reverseProxy.realIpHeaders then
          [ind 2 ++ "proxy_set_header Host $host;",
           ind 2 ++ "proxy_set_header X-Real-IP $remote_addr;",
           ind 2 ++ "proxy_set_header X-Forwarded-For $proxy_add_x_forwarded_for;",
           ind 2 ++ "proxy_set_header X-Forwarded-Proto $scheme;"]
        else [])
    ++ (c.reverseProxy.customHeaders.filterMap (fun h =>
          if truthy h.1 && truthy h.2 then
            some (ind 2 ++ "proxy_set_header " ++ h.1 ++ " " ++ h.2 ++ ";")
          else none))
    ++ [ind 1 ++ "\x7d", ""]
  else []

/-- Mirrors the lib generator's `generateLocationBlock`: the location line
uses `loc.path` verbatim (no match-type handling), proxy locations always get
the backend fallback and host headers, custom lines are pushed trimmed
(including blanks). -/
def libLocationBlock (loc : LocationConfig) (c : NginxConfig) : List String :=
  [ind 1 ++ "location " ++ loc.path ++ " \x7b"]
  ++ (if c.security.rateLimiting then
        [ind 2 ++ "limit_req zone=ratelimit burst=" ++ toString c.security.rateBurst
           ++ " nodelay;"]
      else [])
  ++ (if loc.type == "static" then
        (if truthy loc.root then [ind 2 ++ "root " ++ loc.root ++ ";"] else [])
        ++ (if truthy loc.tryFiles then [ind 2 ++ "try_files " ++ loc.tryFiles ++ ";"] else [])
        ++ (if truthy loc.index then [ind 2 ++ "index " ++ loc.index ++ ";"] else [])
        ++ (if loc.autoindex then [ind 2 ++ "autoindex on;"] else [])
        ++ (if truthy loc.cacheExpiry then [ind 2 ++ "expires " ++ loc.cacheExpiry ++ ";"] else [])
      else if loc.type == "proxy" then
        [ind 2 ++ "proxy_pass "
           ++ (if loc.proxyPass == "" then "http://127.0.0.1:3000" else loc.proxyPass) ++ ";",
         ind 2 ++ "proxy_http_version 1.1;"]
        ++ (if loc.proxyWebSocket then
              [ind 2 ++ "proxy_set_header Upgrade $http_upgrade;",
               ind 2 ++ "proxy_set_header Connection \"upgrade\";"]
            else [])
        ++ [ind 2 ++ "proxy_set_header Host $host;",
            ind 2 ++ "proxy_set_header X-Real-IP $remote_addr;",
            ind 2 ++ "proxy_set_header X-Forwarded-For $proxy_add_x_forwarded_for;",
            ind 2 ++ "proxy_set_header X-Forwarded-Proto $scheme;"]
        ++ (loc.proxyHeaders.filterMap (fun h =>
              if truthy h.1 && truthy h.2 then
                some (ind 2 ++ "proxy_set_header " ++ h.1 ++ " " ++ h.2 ++ ";")
              else none))
      else if loc.type == "redirect" then
        [ind 2 ++ "return " ++ toString loc.redirectCode ++ " " ++ loc.redirectUrl ++ ";"]
      else if loc.type == "custom" then
        (if truthy loc.customDirectives then
          (jsSplitLines loc.customDirectives).map (fun cl => ind 2 ++ jsTrim cl)
        else [])
      else [])
  ++ [ind 1 ++ "\x7d"]

/-- Locations section of the lib generator (each block followed by a blank). -/
def libLocationsSection (c : NginxConfig) : List String :=
  if c.locations.length > 0 then
    [ind 1 ++ "# ─── Location Blocks ───"]
    ++ (c.locations.map (fun loc => libLocationBlock loc c ++ [""])).flatten
  else []

/-- Rate-limited default location of the lib generator (only with rate
limiting on, no locations and no reverse proxy). -/
def libRateDefaultLocation (c : NginxConfig) : List String :=
  if c.security.rateLimiting && c.locations.length == 0 && !c.reverseProxy.enabled then
    [ind 1 ++ "location / \x7b",
     ind 2 ++ "limit_req zone=ratelimit burst=" ++ toString c.security.rateBurst ++ " nodelay;",
     ind 2 ++ "try_files $uri $uri/ =404;",
     ind 1 ++ "\x7d", ""]
  else []

/-- Static-caching locations of the lib generator. -/
def libStaticCachingLines (c : NginxConfig) : List String :=
  if c.performance.staticCaching then
    [ind 1 ++ "# ─── Static File Caching ───",
     ind 1 ++ "location ~* \\.(jpg|jpeg|png|gif|ico|svg|webp)$ \x7b",
     ind 2 ++ "expires "
       ++ (if truthy c.performance.cacheExpiry then c.performance.cacheExpiry else "30d") ++ ";",
     ind 2 ++ "add_header Cache-Control \"public, immutable\";",
     ind 1 ++ "\x7d", "",
     ind 1 ++ "location ~* \\.(css|js|woff2|woff|ttf)$ \x7b",
     ind 2 ++ "expires "
       ++ (if truthy c.performance.cacheExpiry then c.performance.cacheExpiry else "7d") ++ ";",
     ind 2 ++ "add_header Cache-Control \"public\";",
     ind 1 ++ "\x7d", ""]
  else []

/-- Mirrors `generateNginxConfig` of `lib/nginx/generator.ts` (the variant
returning a plain string) as the list of emitted lines, in source order:
upstream, redirect, rate zone, then the main server block. -/
def generateNginxConfigLibLines (c : NginxConfig) : List String :=
  libUpstreamLines c ++ libRedirectLines c ++ libRateZoneLines c
  ++ ["# ─── Main Server Block ───────────────────────", "server \x7b"]
  ++ libListenLines c ++ libHeadLines c
  ++ libSSLBlock c ++ libSecurityBlock c ++ libPerformanceBlock c ++ libLoggingBlock c
  ++ libReverseProxyLines c
  ++ libLocationsSection c
  ++ libRateDefaultLocation c
  ++ libStaticCachingLines c
  ++ ["\x7d"]

/-- Emitted text of the lib generator (`lines.join('\n')`). -/
def generateNginxConfigLib (c : NginxConfig) : String :=
  String.intercalate "\n" (generateNginxConfigLibLines c)


/-- Token kinds of `parser.ts`. -/
inductive TokenType where
  | directive
  | blockStart
  | blockEnd
  | comment
  | semicolon
deriving DecidableEq, Repr

/-- Mirrors `Token` of `parser.ts`; `value` is empty for punctuation tokens
(the source leaves it `undefined` there and only reads it with a `|| ''`
fallback). -/
structure Token where
  type : TokenType
  value : String
  line : Nat
deriving DecidableEq, Repr

/-- JavaScript `/\s/` on the non-newline characters (the tokenizer handles
`'\n'` before this test). -/
def jsWhitespace (ch : Char) : Bool :=
  ch == ' ' || ch == '\t' || ch == '\r' || ch == '\x0b' || ch == '\x0c'

/-- Comment scan of the tokenizer: consume to just before the newline. -/
def scanToNewline : List Char → List Char × List Char
  | [] => ([], [])
  | ch :: rest =>
    if ch = '\n' then ([], ch :: rest)
    else
      let r := scanToNewline rest
      (ch :: r.1, r.2)

/-- Quoted-value scan of the tokenizer: consume until the same quote char not
preceded by a backslash (`raw[i-1] !== '\\'`); at end of input, degrade to
having consumed everything with the `quoted` flag unset. The second argument
is the previously consumed character (initially the opening quote). -/
def scanQuoted (quoteChar : Char) : List Char → Char → List Char × Bool × List Char
  | [], _ => ([], false, [])
  | ch :: rest, prev =>
    if ch = quoteChar ∧ prev ≠ '\\' then ([], true, rest)
    else
      let r := scanQuoted quoteChar rest ch
      (ch :: r.1, r.2.1, r.2.2)

/-- Unquoted-word scan of the tokenizer: consume while not whitespace, `;`,
brace or newline. -/
def scanWord : List Char → List Char × List Char
  | [] => ([], [])
  | ch :: rest =>
    if jsWhitespace ch || ch == '\n' || ch == ';' || ch == '\x7b' || ch == '\x7d' then
      ([], ch :: rest)
    else
      let r := scanWord rest
      (ch :: r.1, r.2)

/-- Main loop of `tokenize` (parser.ts); the fuel argument only bounds the
iteration count (each iteration consumes at least one character, so
`length + 1` fuel never runs out). -/
def tokenizeGo : Nat → List Char → Nat → List Token
  | 0, _, _ => []
  | _ + 1, [], _ => []
  | fuel + 1, ch :: rest, line =>
    if ch = '\n' then tokenizeGo fuel rest (line + 1)
    else if jsWhitespace ch then tokenizeGo fuel rest line
    else if ch = '#' then
      let r := scanToNewline rest
      { type := .comment, value := jsTrim (String.mk r.1), line := line }
        :: tokenizeGo fuel r.2 line
    else if ch = '\x7b' then
      { type := .blockStart, value := "", line := line } :: tokenizeGo fuel rest line
    else if ch = '\x7d' then
      { type := .blockEnd, value := "", line := line } :: tokenizeGo fuel rest line
    else if ch = ';' then
      { type := .semicolon, value := "", line := line } :: tokenizeGo fuel rest line
    else if ch = '"' ∨ ch = '\x27' then
      let r := scanQuoted ch rest ch
      let value := String.mk r.1
      if value != "" || r.2.1 then
        { type := .directive, value := value, line := line } :: tokenizeGo fuel r.2.2 line
      else tokenizeGo fuel r.2.2 line
    else
      let r := scanWord (ch :: rest)
      let value := String.mk r.1
      if value != "" then
        { type := .directive, value := value, line := line } :: tokenizeGo fuel r.2 line
      else tokenizeGo fuel r.2 line

/-- Mirrors `tokenize` of `parser.ts`. -/
def tokenize (raw : String) : List Token :=
  tokenizeGo (raw.toList.length + 1) raw.toList 1

/-- Mirrors `NginxNode` of `parser.ts` as a tagged union: a leaf directive or
a block with children. -/
inductive NginxNode where
  | directive (name : String) (args : List String) (line : Nat)
  | block (name : String) (args : List String) (children : List NginxNode) (line : Nat)

/-- Name accessor of `NginxNode`. -/
def NginxNode.name : NginxNode → String
  | .directive n _ _ => n
  | .block n _ _ _ => n

/-- Argument-list accessor of `NginxNode`. -/
def NginxNode.args : NginxNode → List String
  | .directive _ a _ => a
  | .block _ a _ _ => a

/-- Children accessor of `NginxNode` (leaf directives have none). -/
def NginxNode.childrenList : NginxNode → List NginxNode
  | .directive _ _ _ => []
  | .block _ _ cs _ => cs

/-- Block-tag test of `NginxNode`. -/
def NginxNode.isBlock : NginxNode → Bool
  | .directive _ _ _ => false
  | .block _ _ _ _ => true

/-- Mirrors the `NginxAST` record of `parser.ts`. -/
structure NginxAST where
  children : List NginxNode
  errors : List String

/-- An open block on the AST builder's stack, with the children collected so
far (the source mutates the node in place; closing the frame at `}` or at end
of input yields the same tree). -/
structure BuildFrame where
  name : String
  args : List String
  line : Nat
  children : List NginxNode

/-- Argument collection of the AST builder: consecutive directive tokens. -/
def collectArgs : List Token → List String × List Token
  | [] => ([], [])
  | t :: rest =>
    if t.type = TokenType.directive then
      let r := collectArgs rest
      (t.value :: r.1, r.2)
    else ([], t :: rest)

/-- Resynchronisation of the AST builder: skip the remaining tokens on the
given source line. -/
def skipLine (line : Nat) : List Token → List Token
  | [] => []
  | t :: rest => if t.line = line then skipLine line rest else t :: rest

/-- Attach a finished node to the innermost open block, or to the root. -/
def pushNode (node : NginxNode) (stack : List BuildFrame) (root : List NginxNode) :
    List BuildFrame × List NginxNode :=
  match stack with
  | [] => ([], root ++ [node])
  | top :: rest => ({ top with children := top.children ++ [node] } :: rest, root)

/-- Helper of `closeStack`: fold an already-closed node outwards through the
remaining open frames, mirroring where the source had already attached the
(mutable) block nodes. -/
def closeStackAux : NginxNode → List BuildFrame → List NginxNode → List NginxNode
  | node, [], root => root ++ [node]
  | node, parent :: more, root =>
    closeStackAux
      (NginxNode.block parent.name parent.args (parent.children ++ [node]) parent.line)
      more root

/-- Close every still-open block at end of input, innermost first. -/
def closeStack : List BuildFrame → List NginxNode → List NginxNode
  | [], root => root
  | top :: rest, root =>
    closeStackAux (NginxNode.block top.name top.args top.children top.line) rest root

/-- Main loop of `buildAST` (parser.ts); fuel bounds the iteration count
(each iteration consumes at least one token). At end of input a non-empty
stack records an `Unclosed block` error for the innermost open block. -/
def buildGo : Nat → List Token → List BuildFrame → List NginxNode → List String →
    List NginxNode × List String
  | 0, _, stack, root, errors =>
    (closeStack stack root,
     match stack with
     | [] => errors
     | top :: _ =>
       errors ++ ["Unclosed block \x27" ++ top.name ++ "\x27 at line " ++ toString top.line])
  | _ + 1, [], stack, root, errors =>
    (closeStack stack root,
     match stack with
     | [] => errors
     | top :: _ =>
       errors ++ ["Unclosed block \x27" ++ top.name ++ "\x27 at line " ++ toString top.line])
  | fuel + 1, t :: rest, stack, root, errors =>
    if t.type = TokenType.comment then buildGo fuel rest stack root errors
    else if t.type = TokenType.blockEnd then
      match stack with
      | [] =>
        buildGo fuel rest stack root
          (errors ++ ["Unexpected \x27\x7d\x27 at line " ++ toString t.line])
      | top :: others =>
        let node := NginxNode.block top.name top.args top.children top.line
        let r := pushNode node others root
        buildGo fuel rest r.1 r.2 errors
    else if t.type = TokenType.directive then
      let name := t.value
      let line := t.line
      let r := collectArgs rest
      match r.2 with
      | [] =>
        buildGo fuel []
          stack root
          (errors ++ ["Unexpected token after \x27" ++ name ++ "\x27 at line " ++ toString line])
      | next :: rest2 =>
        if next.type = TokenType.blockStart then
          buildGo fuel rest2
            ({ name := name, args := r.1, line := line, children := [] } :: stack) root errors
        else if next.type = TokenType.semicolon then
          let node := NginxNode.directive name r.1 line
          let p := pushNode node stack root
          buildGo fuel rest2 p.1 p.2 errors
        else
          buildGo fuel (skipLine line r.2) stack root
            (errors ++ ["Unexpected token after \x27" ++ name ++ "\x27 at line " ++ toString line])
    else buildGo fuel rest stack root errors

/-- Mirrors `buildAST` of `parser.ts`. -/
def buildAST (tokens : List Token) : NginxAST :=
  let r := buildGo (tokens.length + 1) tokens [] [] []
  { children := r.1, errors := r.2 }


/-- Mirrors the `ImportResult` record of `parser.ts`. -/
structure ImportResult where
  config : NginxConfig
  warnings : List String
  parseErrors : List String
deriving DecidableEq, Repr

/-- JavaScript `arg.split('=')[1]` for the upstream `server` argument parsing:
the text between the first and second `=`. -/
def jsSplitEqSecond (s : String) : String :=
  String.mk (((s.toList.dropWhile (fun ch => ch ≠ '=')).drop 1).takeWhile (fun ch => ch ≠ '='))

/-- JavaScript `parseInt(x) || fallback`: the fallback applies to `NaN` and to
a parsed `0` alike. -/
def parseIntOr (s : String) (fallback : Nat) : Nat :=
  match parseIntJS s with
  | none => fallback
  | some 0 => fallback
  | some n => n

/-- Mirrors `mapServerDirective` of `parser.ts`. The source pushes into a
shared `warnings` array; here the call returns the warnings it pushes (second
component, appended by the caller in order, which yields the same final
array). The three sites where the source dereferences `args[0]`
unconditionally (`ssl_ciphers`, `add_header`, `client_max_body_size`) throw a
`TypeError` in JavaScript when the directive has no arguments; they are
modelled as `Except.error`. Elsewhere an absent `args[i]` (JavaScript
`undefined`) flows into a string field or a comparison without throwing and
is modelled as `""`. -/
def mapServerDirective (node : NginxNode) (config : NginxConfig)
    (custom : List String) :
    Except String (NginxConfig × List String × List String) :=
  let name := node.name
  let args := node.args
  if name == "listen" then
    let c1 :=
      if args.contains "ssl" then
        { config with listen443 := true, ssl := { config.ssl with enabled := true } }
      else
        match parseIntJS (args.headD "") with
        | some port => { config with listenPort := port }
        | none => config
    let c2 :=
      if args.contains "http2" then
        { c1 with performance := { c1.performance with http2 := true } }
      else c1
    .ok (c2, [], custom)
  else if name == "server_name" then
    .ok ({ config with serverName := String.intercalate " " args }, [], custom)
  else if name == "root" then
    .ok ({ config with rootPath := args.headD "" }, [], custom)
  else if name == "index" then
    .ok ({ config with indexFiles := args }, [], custom)
  else if name == "ssl_certificate" then
    .ok ({ config with
            ssl := { config.ssl with certificatePath := args.headD "", enabled := true } },
         [], custom)
  else if name == "ssl_certificate_key" then
    .ok ({ config with ssl := { config.ssl with keyPath := args.headD "" } }, [], custom)
  else if name == "ssl_protocols" then
    .ok ({ config with ssl := { config.ssl with protocols := args } }, [], custom)
  else if name == "ssl_ciphers" then
    match args with
    | [] => .error "TypeError: Cannot read properties of undefined (reading \x27includes\x27)"
    | a :: _ =>
      let preset :=
        if jsIncludes a "CHACHA20" then "modern"
        else if jsIncludes a "DES" then "legacy"
        else "intermediate"
      .ok ({ config with ssl := { config.ssl with preset := preset } }, [], custom)
  else if name == "ssl_stapling" then
    .ok ({ config with ssl := { config.ssl with enableOCSP := args.headD "" == "on" } },
         [], custom)
  else if name == "server_tokens" then
    .ok ({ config with
            security := { config.security with hideVersion := args.headD "" == "off" } },
         [], custom)
  else if name == "add_header" then
    match args with
    | [] => .error "TypeError: Cannot read properties of undefined (reading \x27toLowerCase\x27)"
    | a :: _ =>
      let headerName := jsToLower a
      if headerName == "strict-transport-security" then
        .ok ({ config with ssl := { config.ssl with enableHSTS := true } }, [], custom)
      else if headerName == "x-frame-options" then
        .ok ({ config with
                security := { config.security with securityHeaders := true } },
             [], custom)
      else .ok (config, [], custom)
  else if name == "gzip" then
    .ok ({ config with
            performance := { config.performance with gzip := args.headD "" == "on" } },
         [], custom)
  else if name == "gzip_types" then
    .ok ({ config with performance := { config.performance with gzipTypes := args } },
         [], custom)
  else if name == "client_max_body_size" then
    match args with
    | [] => .error "TypeError: Cannot read properties of undefined (reading \x27match\x27)"
    | a :: _ =>
      let chars := a.toList
      let digits := chars.takeWhile Char.isDigit
      let restc := chars.drop digits.length
      let unitOk := restc = [] ∨
        (restc.length = 1 ∧
          (restc.headD ' ' ∈ (['k', 'm', 'g', 'K', 'M', 'G'] : List Char)))
      if !digits.isEmpty ∧ unitOk then
        let size := digits.foldl (fun n ch => n * 10 + (ch.toNat - 48)) 0
        let unit := (restc.headD 'M').toUpper
        let unitStr := if unit = 'G' then "GB" else "MB"
        .ok ({ config with performance :=
                { config.performance with
                    clientMaxBodySize := size, clientMaxBodyUnit := unitStr } },
             [], custom)
      else .ok (config, [], custom)
  else if name == "access_log" then
    if args.headD "" == "off" then
      .ok ({ config with logging := { config.logging with accessLog := false } }, [], custom)
    else
      .ok ({ config with logging :=
              { config.logging with accessLog := true, accessLogPath := args.headD "" } },
           [], custom)
  else if name == "error_log" then
    let c1 := { config with logging := { config.logging with errorLogPath := args.headD "" } }
    let c2 :=
      if (args.get? 1).getD "" != "" then
        { c1 with logging := { c1.logging with errorLogLevel := (args.get? 1).getD "" } }
      else c1
    .ok (c2, [], custom)
  else
    if config.locations.length > 0 then
      .ok (config, ["Ignored directive \"" ++ name ++ "\""], custom)
    else
      .ok (config, [], custom ++ [name ++ " " ++ String.intercalate " " args ++ ";"])

/-- One child directive of a location block (`mapLocationBlock`'s inner
`forEach`); nested blocks are skipped. The state pairs the location being
built with the whole config, because `proxy_pass` flips the top-level
reverse-proxy flag as a side effect. -/
def mapLocationChild (st : LocationConfig × NginxConfig) (child : NginxNode) :
    LocationConfig × NginxConfig :=
  match child with
  | .block _ _ _ _ => st
  | .directive name args _ =>
    let loc := st.1
    let config := st.2
    if name == "root" then ({ loc with root := args.headD "" }, config)
    else if name == "try_files" then ({ loc with tryFiles := String.intercalate " " args }, config)
    else if name == "index" then ({ loc with index := String.intercalate " " args }, config)
    else if name == "autoindex" then ({ loc with autoindex := args.headD "" == "on" }, config)
    else if name == "expires" then ({ loc with cacheExpiry := String.intercalate " " args }, config)
    else if name == "proxy_pass" then
      ({ loc with type := "proxy", proxyPass := args.headD "" },
       { config with reverseProxy := { config.reverseProxy with enabled := true } })
    else if name == "proxy_set_header" then
      if args.headD "" == "Upgrade" && (args.get? 1).getD "" == "$http_upgrade" then
        ({ loc with proxyWebSocket := true }, config)
      else st
    else if name == "return" then
      if args.headD "" == "301" || args.headD "" == "302" then
        ({ loc with
            type := "redirect"
            redirectCode := (if args.headD "" == "301" then 301 else 302)
            redirectUrl := (args.get? 1).getD "" }, config)
      else st
    else st

/-- Mirrors `mapLocationBlock` of `parser.ts`: derive the match type from the
argument list, then fold the child directives (the source can never actually
return `null`, so the result is the pair of the location and the possibly
updated config). -/
def mapLocationBlock (node : NginxNode) (config : NginxConfig) :
    LocationConfig × NginxConfig :=
  let args := node.args
  let base := createDefaultLocation
  let loc0 :=
    if args.headD "" == "=" then
      { base with matchType := "exact", path := (args.get? 1).getD "" }
    else if args.headD "" == "~" then
      { base with matchType := "regex", path := (args.get? 1).getD "" }
    else if args.headD "" == "~*" then
      { base with matchType := "regex_case_insensitive", path := (args.get? 1).getD "" }
    else { base with matchType := "prefix", path := args.headD "" }
  node.childrenList.foldl mapLocationChild (loc0, config)

/-- One child of the server block in `astToConfig`: directives go through
`mapServerDirective` (whose emitted warnings are appended to the accumulated
list), `location` blocks through `mapLocationBlock`, any other block is
ignored with a warning. The state is `(config, warnings so far, custom
directives so far)`. -/
def serverChildStep (st : Except String (NginxConfig × List String × List String))
    (node : NginxNode) :
    Except String (NginxConfig × List String × List String) :=
  match st with
  | .error e => .error e
  | .ok s =>
    match node with
    | .directive _ _ _ =>
      match mapServerDirective node s.1 s.2.2 with
      | .error e => .error e
      | .ok r => .ok (r.1, s.2.1 ++ r.2.1, r.2.2)
    | .block bname _ _ _ =>
      if bname == "location" then
        let r := mapLocationBlock node s.1
        .ok ({ r.2 with locations := r.2.locations ++ [r.1] }, s.2.1, s.2.2)
      else
        .ok (s.1,
             s.2.1 ++ ["Ignored unsupported block \"" ++ bname ++ "\" inside server."],
             s.2.2)

/-- One child of the upstream block in `astToConfig` (matched on `name` only,
as in the source). -/
def upstreamChildStep (up : UpstreamConfig) (node : NginxNode) : UpstreamConfig :=
  if node.name == "server" then
    let server0 := { createDefaultUpstreamServer with address := node.args.headD "" }
    let server := (node.args.drop 1).foldl (fun srv arg =>
      let s1 :=
        if jsStartsWith arg "weight=" then
          { srv with weight := parseIntOr (jsSplitEqSecond arg) 1 }
        else srv
      let s2 :=
        if jsStartsWith arg "max_fails=" then
          { s1 with maxFails := parseIntOr (jsSplitEqSecond arg) 1 }
        else s1
      if jsStartsWith arg "fail_timeout=" then
        { s2 with failTimeout := parseIntOr (jsSplitEqSecond arg) 30 }
      else s2) server0
    { up with servers := up.servers ++ [server] }
  else if node.name == "least_conn" || node.name == "ip_hash" || node.name == "random" then
    { up with method := node.name }
  else up

/-- Server-block filter of `astToConfig`. -/
def serverBlocksOf (ast : NginxAST) : List NginxNode :=
  ast.children.filter (fun n => n.isBlock && n.name == "server")

/-- Upstream-block filter of `astToConfig`. -/
def upstreamBlocksOf (ast : NginxAST) : List NginxNode :=
  ast.children.filter (fun n => n.isBlock && n.name == "upstream")

/-- Mirrors `astToConfig` of `parser.ts`: reset the default location list, map
in the first server block (warning on zero or on extras), then the first
upstream block (count warning on extras), then join collected top-level
custom directives. The result is an `Except` because three directive mappers
can throw in the source (see `mapServerDirective`). -/
def astToConfig (ast : NginxAST) : Except String ImportResult :=
  let config0 := { createDefaultConfig with locations := [] }
  let warnings0 := ast.errors
  let serverBlocks := serverBlocksOf ast
  let upstreamBlocks := upstreamBlocksOf ast
  match serverBlocks with
  | [] =>
    .ok { config := config0
          warnings := warnings0 ++ ["No \"server\" block found in configuration."]
          parseErrors := [] }
  | serverNode :: _ =>
    let warnings1 :=
      if serverBlocks.length > 1 then
        warnings0 ++ ["Found " ++ toString serverBlocks.length
          ++ " server blocks. Imported the first one."]
      else warnings0
    match serverNode.childrenList.foldl serverChildStep (.ok (config0, warnings1, [])) with
    | .error e => .error e
    | .ok s =>
      let warnings2 := s.2.1 ++
        (if upstreamBlocks.length > 1 then
          ["Found " ++ toString upstreamBlocks.length
            ++ " upstream blocks. Imported the first one."]
         else [])
      let config2 :=
        match upstreamBlocks with
        | [] => s.1
        | upNode :: _ =>
          if upNode.args.headD "" != "" then
            { s.1 with
                upstream :=
                  upNode.childrenList.foldl upstreamChildStep
                    { enabled := true, name := upNode.args.headD ""
                      servers := [], method := "round-robin" } }
          else s.1
      let config3 :=
        if s.2.2.length > 0 then
          { config2 with customDirectives := some (String.intercalate "\n" s.2.2) }
        else config2
      .ok { config := config3, warnings := warnings2, parseErrors := ast.errors }

/-- Mirrors `parseNginxConfig` of `parser.ts`: tokenize, build the AST, map
to a config. -/
def parseNginxConfig (raw : String) : Except String ImportResult :=
  astToConfig (buildAST (tokenize raw))

/-- Engine-generator round trip: generate, tokenize, build, import, regenerate. -/
def roundTripEngine (c : NginxConfig) : Except String String :=
  (astToConfig (buildAST (tokenize (generateNginxConfigEngine c)))).map
    (fun r => generateNginxConfigEngine r.config)

/-- Model whose generated text ends with a custom directive after the
location blocks. -/
def customDirectiveModel : NginxConfig :=
  { createDefaultConfig with customDirectives := some "custom_one two;" }

set_option maxRecDepth 100000 in
/-- C1 counterexample: the custom directive emitted after the location blocks
is dropped on import (the importer ignores unmodelled directives once a
location has been imported), so regenerating from the imported model yields
the default model's text, not the original. -/
theorem c1_roundtrip_counterexample :
    roundTripEngine customDirectiveModel =
      Except.ok (generateNginxConfigEngine createDefaultConfig)
    ∧ generateNginxConfigEngine createDefaultConfig ≠
      generateNginxConfigEngine customDirectiveModel :=
  ⟨rfl, by decide⟩

set_option maxRecDepth 100000 in
/-- C1 amended: the default model is an engine-generator round-trip fixed
point (its emitted directives are all importer-modelled). -/
theorem c1_roundtrip_default_fixed :
    roundTripEngine createDefaultConfig =
      Except.ok (generateNginxConfigEngine createDefaultConfig) := rfl

/-- The AST of the two-line input `server { ssl_ciphers; }`: one server block
whose only child is a `ssl_ciphers` directive with no arguments. -/
def sslCiphersNoArgAST : NginxAST :=
  { children := [NginxNode.block "server" [] [NginxNode.directive "ssl_ciphers" [] 1] 1]
    errors := [] }

/-- C4 — the importer is not total: on a server block containing a bare
`ssl_ciphers;` directive, `astToConfig` dereferences `args[0]` and throws
(modelled as `Except.error`), both on the raw AST and through the full
`parseNginxConfig` pipeline. -/
theorem c4_import_throws :
    astToConfig sslCiphersNoArgAST =
      Except.error "TypeError: Cannot read properties of undefined (reading \x27includes\x27)"
    ∧ parseNginxConfig "server \x7b ssl_ciphers; \x7d" =
      Except.error "TypeError: Cannot read properties of undefined (reading \x27includes\x27)" :=
  ⟨rfl, rfl⟩

/-- Model with a 10-MB client body limit (and nothing else changed from the
defaults). -/
def bodySizeModel : NginxConfig :=
  { createDefaultConfig with
      performance := { createDefaultConfig.performance with clientMaxBodySize := 10 } }

/-- C7 — `client_max_body_size` unit suffix: on the same model the lib
generator emits the valid single-letter suffix (`10m`), while the engine
generator emits the raw unit enum (`10MB`), which is not a valid nginx size
unit. -/
theorem c7_body_size_unit :
    "    client_max_body_size 10m;" ∈ generateNginxConfigLibLines bodySizeModel
    ∧ "    client_max_body_size 10MB;" ∈ generateNginxConfigEngineLines bodySizeModel
    ∧ "    client_max_body_size 10m;" ∉ generateNginxConfigEngineLines bodySizeModel := by
  refine ⟨?_, ?_, ?_⟩ <;> decide

/-- Model with the reverse proxy enabled, an empty backend address and no
locations. -/
def proxyNoLocationsModel : NginxConfig :=
  { createDefaultConfig with
      locations := []
      reverseProxy := { createDefaultConfig.reverseProxy with enabled := true } }

/-- C3 counterexample: with the reverse proxy enabled and no locations, the
engine generator's substituted default location is a static stanza (it has
the `try_files` fallback and no `proxy_pass` anywhere in the output), not a
proxy stanza. -/
theorem c3_counterexample :
    "        try_files $uri $uri/ =404;" ∈
      generateNginxConfigEngineLines proxyNoLocationsModel
    ∧ (generateNginxConfigEngineLines proxyNoLocationsModel).all
        (fun l => !(jsIncludes l "proxy_pass")) = true := by
  refine ⟨?_, ?_⟩ <;> decide

/-- C3 amended: the default proxy location (with the `http://127.0.0.1:3000`
fallback for a blank backend) is emitted by the lib generator when the
reverse proxy is enabled and the location list is empty; the engine
generator substitutes the synthetic static default location (`try_files
$uri $uri/ =404`) whenever the location list is empty, regardless of the
reverse-proxy flag. -/
theorem c3_default_locations :
    (∀ c : NginxConfig, c.reverseProxy.enabled = true → c.locations = [] →
      (ind 2 ++ "proxy_pass "
        ++ (if c.reverseProxy.backendAddress == "" then "http://127.0.0.1:3000"
            else c.reverseProxy.backendAddress) ++ ";")
        ∈ generateNginxConfigLibLines c)
    ∧ (∀ c : NginxConfig, c.locations = [] →
        (ind 2 ++ "try_files " ++ "$uri $uri/ =404" ++ ";")
          ∈ generateNginxConfigEngineLines c) := by
  constructor
  · intro c hrp hloc
    have hx : (ind 2 ++ "proxy_pass "
        ++ (if c.reverseProxy.backendAddress == "" then "http://127.0.0.1:3000"
            else c.reverseProxy.backendAddress) ++ ";") ∈ libReverseProxyLines c := by
      simp [libReverseProxyLines, hrp, hloc]
    unfold generateNginxConfigLibLines
    simp only [List.append_assoc]
    exact List.mem_append_right _ (List.mem_append_right _ (List.mem_append_right _
      (List.mem_append_right _ (List.mem_append_right _ (List.mem_append_right _
      (List.mem_append_right _ (List.mem_append_right _ (List.mem_append_right _
      (List.mem_append_right _ (List.mem_append_left _ hx))))))))))
  · intro c hloc
    have hx : (ind 2 ++ "try_files " ++ "$uri $uri/ =404" ++ ";")
        ∈ engineLocationsSection c := by
      simp [engineLocationsSection, hloc, engineLocationBlock, engineDefaultLocation,
        truthy]
    unfold generateNginxConfigEngineLines
    simp only [List.append_assoc]
    exact List.mem_append_right _ (List.mem_append_right _ (List.mem_append_right _
      (List.mem_append_right _ (List.mem_append_right _ (List.mem_append_right _
      (List.mem_append_right _ (List.mem_append_right _ (List.mem_append_right _
      (List.mem_append_right _ (List.mem_append_left _ hx))))))))))

/-- Witness for C3's amended statement at the concrete model above. -/
theorem c3_witness :
    (ind 2 ++ "proxy_pass "
      ++ (if proxyNoLocationsModel.reverseProxy.backendAddress == ""
          then "http://127.0.0.1:3000"
          else proxyNoLocationsModel.reverseProxy.backendAddress) ++ ";") ∈
      generateNginxConfigLibLines proxyNoLocationsModel
    ∧ (ind 2 ++ "try_files " ++ "$uri $uri/ =404" ++ ";") ∈
      generateNginxConfigEngineLines proxyNoLocationsModel :=
  ⟨c3_default_locations.1 proxyNoLocationsModel rfl rfl,
   c3_default_locations.2 proxyNoLocationsModel rfl⟩

/-- Model with SSL and the HTTP redirect enabled and `listen443` off. -/
def redirectModel : NginxConfig :=
  { createDefaultConfig with
      ssl := { createDefaultConfig.ssl with enabled := true, httpRedirect := true } }

/-- C8 counterexample: the model has no IPv6 flag at all (and its only
port-related flag, `listen443`, is off here), yet the redirect block carries
the IPv6 dual listen line — it is emitted unconditionally, not "only if the
model's IPv6 flag is set"; moreover the engine generator's redirect targets
`$server_name`, not the preserved request host. -/
theorem c8_counterexample :
    redirectModel.listen443 = false
    ∧ "    listen [::]:80;" ∈ libRedirectLines redirectModel
    ∧ "    return 301 https://$server_name$request_uri;" ∈
        generateNginxConfigEngineLines redirectModel
    ∧ "    return 301 https://$host$request_uri;" ∉
        generateNginxConfigEngineLines redirectModel := by
  refine ⟨rfl, ?_, ?_, ?_⟩ <;> decide

/-- C8 amended — the lib generator's plain-HTTP redirect block: it is emitted
(before the main server block, whose sections follow it in the emitted line
list) exactly when SSL and the HTTP-redirect flag are both set; it listens on
port 80 independent of the configured `listenPort` (replacing the port leaves
the block unchanged), always carries the IPv6 dual listen line (the model has
no IPv6 flag), and redirects with 301 to `https://$host$request_uri`,
preserving the original request's host and URI. -/
theorem c8_redirect_block :
    ∀ (c : NginxConfig) (p : Nat),
      libRedirectLines { c with listenPort := p } = libRedirectLines c
      ∧ (c.ssl.enabled = true → c.ssl.httpRedirect = true →
          (ind 1 ++ "listen 80;") ∈ libRedirectLines c
          ∧ (ind 1 ++ "listen [::]:80;") ∈ libRedirectLines c
          ∧ (ind 1 ++ "return 301 https://$host$request_uri;") ∈ libRedirectLines c)
      ∧ (¬ (c.ssl.enabled = true ∧ c.ssl.httpRedirect = true) →
          libRedirectLines c = [])
      ∧ generateNginxConfigLibLines c =
          libUpstreamLines c ++ libRedirectLines c ++ libRateZoneLines c
          ++ ["# ─── Main Server Block ───────────────────────", "server \x7b"]
          ++ libListenLines c ++ libHeadLines c ++ libSSLBlock c ++ libSecurityBlock c
          ++ libPerformanceBlock c ++ libLoggingBlock c ++ libReverseProxyLines c
          ++ libLocationsSection c ++ libRateDefaultLocation c
          ++ libStaticCachingLines c ++ ["\x7d"] := by
  intro c p
  refine ⟨rfl, ?_, ?_, rfl⟩
  · intro hssl hr
    refine ⟨?_, ?_, ?_⟩ <;> simp [libRedirectLines, hssl, hr]
  · intro hn
    cases hssl : c.ssl.enabled <;> cases hr : c.ssl.httpRedirect <;>
      simp_all [libRedirectLines]

/-- Witness for C8's amended statement at the concrete model above. -/
theorem c8_witness :
    libRedirectLines { redirectModel with listenPort := 9999 } =
      libRedirectLines redirectModel
    ∧ (ind 1 ++ "listen 80;") ∈ libRedirectLines redirectModel
    ∧ (ind 1 ++ "listen [::]:80;") ∈ libRedirectLines redirectModel
    ∧ (ind 1 ++ "return 301 https://$host$request_uri;") ∈ libRedirectLines redirectModel :=
  ⟨(c8_redirect_block redirectModel 9999).1,
   ((c8_redirect_block redirectModel 9999).2.1 rfl rfl).1,
   ((c8_redirect_block redirectModel 9999).2.1 rfl rfl).2.1,
   ((c8_redirect_block redirectModel 9999).2.1 rfl rfl).2.2⟩

/-- Warning-prefix transport used to relate server-children folds that start
from different already-accumulated warning lists. -/
def prependW (w : List String) :
    NginxConfig × List String × List String → NginxConfig × List String × List String :=
  fun t => (t.1, w ++ t.2.1, t.2.2)

/-- A failed import state propagates through the server-children fold. -/
theorem serverFold_error (children : List NginxNode) (e : String) :
    children.foldl serverChildStep (.error e) = .error e := by
  induction children with
  | nil => rfl
  | cons node rest ih => simpa [serverChildStep] using ih

/-- One server-child step only appends to the accumulated warnings, so the
accumulated prefix transports through it. -/
theorem serverChildStep_prepend (node : NginxNode) (cfg : NginxConfig)
    (cd w : List String) :
    serverChildStep (.ok (cfg, w, cd)) node =
      (serverChildStep (.ok (cfg, [], cd)) node).map (prependW w) := by
  cases node with
  | directive n a l =>
    cases h : mapServerDirective (NginxNode.directive n a l) cfg cd with
    | error e => simp [serverChildStep, h, prependW, Except.map]
    | ok r => simp [serverChildStep, h, prependW, Except.map]
  | block n a cs l =>
    by_cases hb : (n == "location") = true
    · simp [serverChildStep, hb, prependW, Except.map]
    · simp [serverChildStep, hb, prependW, Except.map]

/-- The server-children fold only appends to the accumulated warnings: its
config and custom-directive components do not depend on the initial warning
list, which transports as a prefix. -/
theorem serverFold_prepend (children : List NginxNode) :
    ∀ (cfg : NginxConfig) (cd w : List String),
    children.foldl serverChildStep (.ok (cfg, w, cd)) =
      (children.foldl serverChildStep (.ok (cfg, [], cd))).map (prependW w) := by
  induction children with
  | nil => intro cfg cd w; simp [prependW, Except.map]
  | cons node rest ih =>
    intro cfg cd w
    rw [List.foldl_cons, List.foldl_cons, serverChildStep_prepend]
    cases h : serverChildStep (.ok (cfg, [], cd)) node with
    | error e => simp [Except.map, serverFold_error]
    | ok t =>
      obtain ⟨c2, w0, cd2⟩ := t
      simp only [Except.map, prependW]
      rw [ih c2 cd2 (w ++ w0), ih c2 cd2 w0]
      cases hx : rest.foldl serverChildStep (.ok (c2, [], cd2)) with
      | error e => simp [Except.map]
      | ok u => simp [Except.map, prependW, List.append_assoc]

/-- No element of the upstream-block filter passes the server-block filter. -/
theorem upstream_blocks_not_server (ast : NginxAST) (u : NginxNode)
    (hu : u ∈ upstreamBlocksOf ast) :
    ¬ ((u.isBlock && u.name == "server") = true) := by
  intro hpred
  unfold upstreamBlocksOf at hu
  have hupred : (u.isBlock && u.name == "upstream") = true := (List.mem_filter.mp hu).2
  simp only [Bool.and_eq_true, beq_iff_eq] at hpred hupred
  rw [hpred.2] at hupred
  exact absurd hupred.2 (by decide)

/-- C9 — importer server-block policy: an AST with no server block imports as
the default model (with the location list reset) plus the "no server block"
warning; an AST with more than one server block yields (on success) the
"Found n server blocks. Imported the first one." warning, and its imported
config equals the one imported from the AST containing only the first server
block (and the upstream blocks). -/
theorem c9_server_block_policy :
    (∀ ast : NginxAST, serverBlocksOf ast = [] →
      astToConfig ast = .ok
        { config := { createDefaultConfig with locations := [] }
          warnings := ast.errors ++ ["No \"server\" block found in configuration."]
          parseErrors := [] })
    ∧ (∀ (ast : NginxAST) (s r : NginxNode) (rest : List NginxNode),
        serverBlocksOf ast = s :: r :: rest →
        (∀ res, astToConfig ast = .ok res →
          ("Found " ++ toString (serverBlocksOf ast).length
            ++ " server blocks. Imported the first one.") ∈ res.warnings)
        ∧ (astToConfig ast).map ImportResult.config =
          (astToConfig { children := s :: upstreamBlocksOf ast
                         errors := ast.errors }).map ImportResult.config) := by
  constructor
  · intro ast h
    simp [astToConfig, h]
  · intro ast s r rest hs
    have hgt : (s :: r :: rest).length > 1 := by simp
    have hsmem : s ∈ serverBlocksOf ast := by
      rw [hs]; exact List.mem_cons_self _ _
    have hspred : (s.isBlock && s.name == "server") = true := by
      unfold serverBlocksOf at hsmem
      exact (List.mem_filter.mp hsmem).2
    have h1 : serverBlocksOf { children := s :: upstreamBlocksOf ast
                               errors := ast.errors } = [s] := by
      unfold serverBlocksOf
      simp only [List.filter_cons, hspred, if_true]
      rw [List.filter_eq_nil_iff.mpr]
      intro u hu
      exact upstream_blocks_not_server ast u hu
    have hsnup : ¬ ((s.isBlock && s.name == "upstream") = true) := by
      intro hp
      simp only [Bool.and_eq_true, beq_iff_eq] at hp hspred
      rw [hspred.2] at hp
      exact absurd hp.2 (by decide)
    have h2 : upstreamBlocksOf { children := s :: upstreamBlocksOf ast
                                 errors := ast.errors } = upstreamBlocksOf ast := by
      unfold upstreamBlocksOf
      simp only [List.filter_cons]
      rw [if_neg hsnup]
      exact List.filter_eq_self.mpr (fun u hu => (List.mem_filter.mp hu).2)
    constructor
    · intro res hres
      rw [hs]
      unfold astToConfig at hres
      rw [hs] at hres
      simp only [List.length_cons] at hres
      rw [if_pos (by omega : rest.length + 1 + 1 > 1)] at hres
      rw [serverFold_prepend] at hres
      cases hf : s.childrenList.foldl serverChildStep
          (.ok ({ createDefaultConfig with locations := [] }, [], [])) with
      | error e => rw [hf] at hres; simp [Except.map] at hres
      | ok t0 =>
        rw [hf] at hres
        simp only [Except.map, prependW] at hres
        cases hres2 : hres
        simp [List.mem_append]
    · unfold astToConfig
      rw [hs, h1, h2]
      simp only [List.length_cons, List.length_nil]
      rw [if_pos (by omega : rest.length + 1 + 1 > 1)]
      rw [if_neg (by omega : ¬ ((0 : Nat) + 1 > 1))]
      rw [serverFold_prepend s.childrenList { createDefaultConfig with locations := [] } []
            (ast.errors ++ ["Found " ++ toString (rest.length + 1 + 1)
              ++ " server blocks. Imported the first one."]),
          serverFold_prepend s.childrenList { createDefaultConfig with locations := [] } []
            ast.errors]
      cases hf : s.childrenList.foldl serverChildStep
          (.ok ({ createDefaultConfig with locations := [] }, [], [])) with
      | error e => simp [hf, Except.map]
      | ok t0 => simp [hf, Except.map, prependW]

/-- Warnings of a successful import, `[]` on a thrown import. -/
def warningsOfD : Except String ImportResult → List String
  | .ok res => res.warnings
  | .error _ => []

/-- A two-server-block AST. -/
def twoServerAST : NginxAST :=
  { children := [NginxNode.block "server" [] [] 1, NginxNode.block "server" [] [] 2]
    errors := [] }

/-- Witness for C9 at concrete ASTs: an empty AST imports as the default
model plus the no-server warning; a two-server AST warns that 2 blocks were
found and imports the same config as the AST with only the first one. -/
theorem c9_witness :
    astToConfig { children := [], errors := [] } = .ok
      { config := { createDefaultConfig with locations := [] }
        warnings := ["No \"server\" block found in configuration."]
        parseErrors := [] }
    ∧ "Found 2 server blocks. Imported the first one." ∈
        warningsOfD (astToConfig twoServerAST)
    ∧ (astToConfig twoServerAST).map ImportResult.config =
      (astToConfig { children := [NginxNode.block "server" [] [] 1]
                     errors := [] }).map ImportResult.config := by
  refine ⟨?_, ?_, ?_⟩
  · exact c9_server_block_policy.1 { children := [], errors := [] } rfl
  · have h := (c9_server_block_policy.2 twoServerAST (NginxNode.block "server" [] [] 1)
      (NginxNode.block "server" [] [] 2) [] rfl).1
    cases hres : astToConfig twoServerAST with
    | error e =>
      have hok : (astToConfig twoServerAST).isOk = true := by decide
      rw [hres] at hok
      simp [Except.isOk, Except.toBool] at hok
    | ok res =>
      have hmem := h res hres
      have estr : ("Found " ++ toString (serverBlocksOf twoServerAST).length
          ++ " server blocks. Imported the first one.")
          = "Found 2 server blocks. Imported the first one." := rfl
      rw [estr] at hmem
      simpa [warningsOfD, hres] using hmem
  · exact (c9_server_block_policy.2 twoServerAST (NginxNode.block "server" [] [] 1)
      (NginxNode.block "server" [] [] 2) [] rfl).2

set_option maxHeartbeats 1000000 in
/-- No server-level directive mapping ever writes the location list. -/
theorem mapServerDirective_locations (node : NginxNode) (cfg : NginxConfig)
    (cd : List String) (r : NginxConfig × List String × List String)
    (h : mapServerDirective node cfg cd = .ok r) :
    r.1.locations = cfg.locations := by
  simp only [mapServerDirective] at h
  by_cases k1 : (node.name == "listen") = true
  · rw [if_pos k1] at h
    injection h with hx
    subst hx
    repeat' split
    all_goals rfl
  rw [if_neg k1] at h
  by_cases k2 : (node.name == "server_name") = true
  · rw [if_pos k2] at h
    injection h with hx
    subst hx
    rfl
  rw [if_neg k2] at h
  by_cases k3 : (node.name == "root") = true
  · rw [if_pos k3] at h
    injection h with hx
    subst hx
    rfl
  rw [if_neg k3] at h
  by_cases k4 : (node.name == "index") = true
  · rw [if_pos k4] at h
    injection h with hx
    subst hx
    rfl
  rw [if_neg k4] at h
  by_cases k5 : (node.name == "ssl_certificate") = true
  · rw [if_pos k5] at h
    injection h with hx
    subst hx
    rfl
  rw [if_neg k5] at h
  by_cases k6 : (node.name == "ssl_certificate_key") = true
  · rw [if_pos k6] at h
    injection h with hx
    subst hx
    rfl
  rw [if_neg k6] at h
  by_cases k7 : (node.name == "ssl_protocols") = true
  · rw [if_pos k7] at h
    injection h with hx
    subst hx
    rfl
  rw [if_neg k7] at h
  by_cases k8 : (node.name == "ssl_ciphers") = true
  · rw [if_pos k8] at h
    repeat' split at h
    all_goals
      first
        | (injection h with hx; subst hx; rfl)
        | (exact absurd h (by simp))
  rw [if_neg k8] at h
  by_cases k9 : (node.name == "ssl_stapling") = true
  · rw [if_pos k9] at h
    injection h with hx
    subst hx
    rfl
  rw [if_neg k9] at h
  by_cases k10 : (node.name == "server_tokens") = true
  · rw [if_pos k10] at h
    injection h with hx
    subst hx
    rfl
  rw [if_neg k10] at h
  by_cases k11 : (node.name == "add_header") = true
  · rw [if_pos k11] at h
    repeat' split at h
    all_goals
      first
        | (injection h with hx; subst hx; rfl)
        | (exact absurd h (by simp))
  rw [if_neg k11] at h
  by_cases k12 : (node.name == "gzip") = true
  · rw [if_pos k12] at h
    injection h with hx
    subst hx
    rfl
  rw [if_neg k12] at h
  by_cases k13 : (node.name == "gzip_types") = true
  · rw [if_pos k13] at h
    injection h with hx
    subst hx
    rfl
  rw [if_neg k13] at h
  by_cases k14 : (node.name == "client_max_body_size") = true
  · rw [if_pos k14] at h
    repeat' split at h
    all_goals
      first
        | (injection h with hx; subst hx; rfl)
        | (exact absurd h (by simp))
  rw [if_neg k14] at h
  by_cases k15 : (node.name == "access_log") = true
  · rw [if_pos k15] at h
    repeat' split at h
    all_goals (injection h with hx; subst hx; rfl)
  rw [if_neg k15] at h
  by_cases k16 : (node.name == "error_log") = true
  · rw [if_pos k16] at h
    injection h with hx
    subst hx
    repeat' split
    all_goals rfl
  rw [if_neg k16] at h
  split at h
  all_goals (injection h with hx; subst hx; rfl)
/-- The server-children fold keeps the location list empty when no child is a
location block. -/
theorem serverFold_locations (children : List NginxNode)
    (hch : ∀ child ∈ children, (child.isBlock && child.name == "location") = false) :
    ∀ (cfg : NginxConfig) (w cd : List String) (r : NginxConfig × List String × List String),
    cfg.locations = [] →
    children.foldl serverChildStep (.ok (cfg, w, cd)) = .ok r →
    r.1.locations = [] := by
  induction children with
  | nil =>
    intro cfg w cd r hloc h
    cases h
    exact hloc
  | cons node rest ih =>
    intro cfg w cd r hloc h
    rw [List.foldl_cons] at h
    have hch' : ∀ child ∈ rest, (child.isBlock && child.name == "location") = false :=
      fun child hc => hch child (List.mem_cons_of_mem _ hc)
    cases node with
    | directive n a l =>
      cases hm : mapServerDirective (NginxNode.directive n a l) cfg cd with
      | error e =>
        rw [show serverChildStep (.ok (cfg, w, cd)) (NginxNode.directive n a l) =
              .error e by simp [serverChildStep, hm]] at h
        rw [serverFold_error] at h
        exact absurd h (by simp)
      | ok t =>
        rw [show serverChildStep (.ok (cfg, w, cd)) (NginxNode.directive n a l) =
              .ok (t.1, w ++ t.2.1, t.2.2) by simp [serverChildStep, hm]] at h
        exact ih hch' t.1 (w ++ t.2.1) t.2.2 r
          ((mapServerDirective_locations _ _ _ _ hm).trans hloc) h
    | block n a cs l =>
      have hb := hch (NginxNode.block n a cs l) (List.mem_cons_self _ _)
      simp only [NginxNode.isBlock, NginxNode.name, Bool.true_and] at hb
      rw [show serverChildStep (.ok (cfg, w, cd)) (NginxNode.block n a cs l) =
            .ok (cfg, w ++ ["Ignored unsupported block \"" ++ n ++ "\" inside server."], cd)
          by simp [serverChildStep, NginxNode.name, hb]] at h
      exact ih hch' cfg _ cd r hloc h

/-- C10 — the importer clears the default location list: a freshly created
Model has the single default static `/` location, but `astToConfig` resets
the list before mapping, so a successful import whose (first) server block
contains no location blocks yields a Model with no locations at all. -/
theorem c10_locations_cleared :
    createDefaultConfig.locations = [createDefaultLocation]
    ∧ (∀ (ast : NginxAST) (s : NginxNode) (rest : List NginxNode) (res : ImportResult),
        serverBlocksOf ast = s :: rest →
        (∀ child ∈ s.childrenList, (child.isBlock && child.name == "location") = false) →
        astToConfig ast = .ok res →
        res.config.locations = []) := by
  refine ⟨rfl, ?_⟩
  intro ast s rest res hs hch hres
  unfold astToConfig at hres
  rw [hs] at hres
  simp only [List.length_cons] at hres
  split at hres
  · exact absurd hres (by simp)
  · rename_i t hfold
    have hloc := serverFold_locations s.childrenList hch _ _ _ t rfl hfold
    cases hres
    repeat' split
    all_goals exact hloc

/-- Location list of a successful import; the default-model list on a thrown
one (a nonempty sentinel, so it cannot be confused with a cleared list). -/
def locationsOfD : Except String ImportResult → List LocationConfig
  | .ok res => res.config.locations
  | .error _ => [createDefaultLocation]

/-- An AST whose single server block holds one directive and no location
blocks. -/
def c10AST : NginxAST :=
  { children := [NginxNode.block "server" []
      [NginxNode.directive "root" ["/var/www/html"] 2] 1]
    errors := [] }

/-- Witness for C10 at a concrete AST: a server block carrying only a `root`
directive imports to a model with no locations at all, although the default
model has one. -/
theorem c10_witness : locationsOfD (astToConfig c10AST) = [] := by
  cases hx : astToConfig c10AST with
  | error e =>
    have hok : (astToConfig c10AST).isOk = true := by decide
    rw [hx] at hok
    simp [Except.isOk, Except.toBool] at hok
  | ok res =>
    have hmain := c10_locations_cleared.2 c10AST
      (NginxNode.block "server" [] [NginxNode.directive "root" ["/var/www/html"] 2] 1)
      [] res rfl (by decide) hx
    simp [locationsOfD, hmain]

end Configen
